import Mathlib

/-
Verification of the in-memory repository layer of the getground
interview-backend-golang service (models/example_model.go and
models/listing.go).

The Go repositories keep their records in a `map[int64]*T` guarded by a
single lock, together with a `nextID` counter.  Every repository
operation is synchronous and sequential under the lock, so each one is
embedded as a pure function from the repository state (an association
list with unique keys standing for the Go map, plus the counter) to a
new state paired with an `Except` result; `time.Now()` is passed in as
an explicit `now : String` argument.  Go errors are embedded as the
`Error()` strings the code builds (`errors.Wrapf(errors.New("not
found"), "... %d", id)` renders as "...: not found").

Pointer-level behaviour (which reads hand out aliases of the store's
internal records) is modelled separately at the end with an explicit
heap: addresses are naturals, the Go map stores addresses, and a caller
mutation through a received pointer is a heap write at its address.
-/

/-! ## Association-list model of the Go `map` -/

/-- Lookup in an association list; models `v, ok := m[k]`. -/
def lookupA {κ : Type} {α : Type} [DecidableEq κ] (m : List (κ × α)) (k : κ) : Option α :=
  match m with
  | [] => none
  | p :: rest => if p.1 = k then some p.2 else lookupA rest k

/-- Insert-or-replace; models `m[k] = v`.  Keeps the position of an
existing key and appends a fresh key at the end (the Go map's iteration
order is unspecified anyway; the list order merely fixes one). -/
def insertA {κ : Type} {α : Type} [DecidableEq κ] (m : List (κ × α)) (k : κ) (v : α) : List (κ × α) :=
  match m with
  | [] => [(k, v)]
  | p :: rest => if p.1 = k then (k, v) :: rest else p :: insertA rest k v

/-- Removal; models `delete(m, k)`. -/
def eraseA {κ : Type} {α : Type} [DecidableEq κ] (m : List (κ × α)) (k : κ) : List (κ × α) :=
  m.filter (fun p => p.1 ≠ k)

/-- The stored values, in the fixed iteration order; models
`for _, v := range m`. -/
def valuesA {κ : Type} {α : Type} (m : List (κ × α)) : List α :=
  m.map (fun p => p.2)

/-! ## Entity repository (models/example_model.go) -/

/-- The `ExampleModel` record: id, name, email and RFC3339 timestamp
strings. -/
structure ExampleModel where
  id : Int
  name : String
  email : String
  createdAt : String
  updatedAt : String
deriving Repr, DecidableEq

/-- State of `ExampleRepositoryImpl`: the keyed collection and the
identity counter. -/
structure ExampleRepositoryImpl where
  data : List (Int × ExampleModel)
  nextID : Int
deriving Repr, DecidableEq

/-- `NewExampleRepository`: empty map, counter starts at 1. -/
def newExampleRepository : ExampleRepositoryImpl :=
  { data := [], nextID := 1 }

namespace ExampleRepositoryImpl

/-- `Create`: validates name/email non-empty, rejects duplicate emails,
then assigns `nextID`, stamps both timestamps with `now`, stores the
record and advances the counter.  The `.ok` value is the stored record
(Go mutates the caller's record in place and stores that pointer). -/
def create (r : ExampleRepositoryImpl) (now : String) (x : ExampleModel) :
    ExampleRepositoryImpl × Except String ExampleModel :=
  if x.name = "" then (r, .error "name is required")
  else if x.email = "" then (r, .error "email is required")
  else if r.data.any (fun p => p.2.email == x.email) then
    (r, .error "email already exists")
  else
    let ex : ExampleModel :=
      { x with id := r.nextID, createdAt := now, updatedAt := now }
    ({ data := insertA r.data ex.id ex, nextID := r.nextID + 1 }, .ok ex)

/-- `GetByID`: looks the id up and returns a fresh field-by-field copy
of the stored record. -/
def getByID (r : ExampleRepositoryImpl) (id : Int) : Except String ExampleModel :=
  match lookupA r.data id with
  | none => .error ("example not found with id: " ++ toString id ++ ": not found")
  | some e =>
    .ok { id := e.id, name := e.name, email := e.email,
          createdAt := e.createdAt, updatedAt := e.updatedAt }

/-- `GetAll`: copies of all stored records, in map iteration order. -/
def getAll (r : ExampleRepositoryImpl) : Except String (List ExampleModel) :=
  .ok (r.data.map (fun p =>
    { id := p.2.id, name := p.2.name, email := p.2.email,
      createdAt := p.2.createdAt, updatedAt := p.2.updatedAt }))

/-- `Update`: re-validates name/email, requires the id to exist, rejects
an email that collides with a different record, carries the original
`CreatedAt` forward, refreshes `UpdatedAt` and replaces the record. -/
def update (r : ExampleRepositoryImpl) (now : String) (x : ExampleModel) :
    ExampleRepositoryImpl × Except String ExampleModel :=
  if x.name = "" then (r, .error "name is required")
  else if x.email = "" then (r, .error "email is required")
  else
    match lookupA r.data x.id with
    | none =>
      (r, .error ("example not found with id: " ++ toString x.id ++ ": not found"))
    | some existing =>
      if r.data.any (fun p => p.1 != x.id && p.2.email == x.email) then
        (r, .error "email already exists")
      else
        let ex : ExampleModel :=
          { x with createdAt := existing.createdAt, updatedAt := now }
        ({ r with data := insertA r.data x.id ex }, .ok ex)

/-- `Delete`: requires the id to exist, then removes the record. -/
def delete (r : ExampleRepositoryImpl) (id : Int) : ExampleRepositoryImpl × Except String Unit :=
  match lookupA r.data id with
  | none =>
    (r, .error ("example not found with id: " ++ toString id ++ ": not found"))
  | some _ => ({ r with data := eraseA r.data id }, .ok ())

end ExampleRepositoryImpl

/-! ## Listing repository (models/listing.go)

`Region` and `PropertyType` are Go string types; the code only ever
compares them against `""`, so they are embedded as `String`.
`GrossYield` is a Go `float64` that no repository operation reads or
computes with; its decimal literals are embedded exactly as rationals. -/

/-- The `AddressDetails` sub-structure of a listing. -/
structure AddressDetails where
  addressLine1 : String
  addressLine2 : String
  city : String
  postcode : String
  shortenedPostcode : String
  country : String
  region : String
deriving Repr, DecidableEq

/-- A property `Photo`. -/
structure Photo where
  originalURL : String
  standardURL : String
  thumbnailURL : String
  mimeType : String
deriving Repr, DecidableEq

/-- The `Listing` record.  `madeVisibleAt` is the nullable `*string`
field. -/
structure Listing where
  id : Int
  addressDetails : AddressDetails
  bedrooms : Int
  bathrooms : Int
  description : String
  grossYield : Rat
  isCashOnly : Bool
  isCompany : Bool
  isNewBuild : Bool
  isShareSale : Bool
  isTenanted : Bool
  madeVisibleAt : Option String
  estimatedDepositInCents : Int
  minimumDepositInCents : Int
  photos : List Photo
  priceInCents : Int
  propertyType : String
  monthlyRentalIncomeInCents : Int
  sizeSqFt : Int
deriving Repr, DecidableEq

/-- State of `ListingRepositoryImpl`: keyed collection plus identity
counter. -/
structure ListingRepositoryImpl where
  data : List (Int × Listing)
  nextID : Int
deriving Repr, DecidableEq

/-- The 24 sample listings hard-coded in `addSampleData`, in source
order (ids 187, 185, 79, 80, 81, 82, 68, 66, 71, 72, 105, 106, 120, 91,
94, 97, 103, 143, 144, 148, 145, 178, 183, 181). -/
def sampleListings : List Listing := [
  { id := 187,
    addressDetails := { addressLine1 := "5 Camden High Street", addressLine2 := "", city := "London", postcode := "N1 7AA", shortenedPostcode := "N17", country := "UK", region := "London" },
    propertyType := "apartment",
    bedrooms := 1, bathrooms := 1, sizeSqFt := 50,
    priceInCents := 12500000, minimumDepositInCents := 1000000, estimatedDepositInCents := 3125000,
    monthlyRentalIncomeInCents := 110000,
    isTenanted := true, isCashOnly := false, isNewBuild := false, isCompany := false, isShareSale := false,
    description := "property",
    photos := [{ originalURL := "https://storage.googleapis.com/assets-terranova-qa-module-core/listings/1b2b53fd-398b-4129-8f7d-c5932f90b3c3", standardURL := "https://storage.googleapis.com/assets-terranova-qa-module-core/listings/1b2b53fd-398b-4129-8f7d-c5932f90b3c3_standard", thumbnailURL := "https://storage.googleapis.com/assets-terranova-qa-module-core/listings/1b2b53fd-398b-4129-8f7d-c5932f90b3c3_thumbnail", mimeType := "image/png" },
      { originalURL := "https://storage.googleapis.com/assets-terranova-qa-module-core/listings/7c8d16b4-09d1-453b-8729-e7bfada38b2e", standardURL := "https://storage.googleapis.com/assets-terranova-qa-module-core/listings/7c8d16b4-09d1-453b-8729-e7bfada38b2e_standard", thumbnailURL := "https://storage.googleapis.com/assets-terranova-qa-module-core/listings/7c8d16b4-09d1-453b-8729-e7bfada38b2e_thumbnail", mimeType := "image/png" }],
    grossYield := (0.1056 : Rat),
    madeVisibleAt := none },
  { id := 185,
    addressDetails := { addressLine1 := "2B fire blvd", addressLine2 := "", city := "Ashford", postcode := "", shortenedPostcode := "ASF", country := "UK", region := "South East" },
    propertyType := "apartment",
    bedrooms := 1, bathrooms := 1, sizeSqFt := 2342,
    priceInCents := 10000000, minimumDepositInCents := 2550000, estimatedDepositInCents := 2500000,
    monthlyRentalIncomeInCents := 30000,
    isTenanted := true, isCashOnly := false, isNewBuild := false, isCompany := false, isShareSale := false,
    description := "asdf",
    photos := [{ originalURL := "https://storage.googleapis.com/assets-terranova-qa-module-core/listings/ba11810b-30fc-4061-b3f5-126e2aae0a95", standardURL := "https://storage.googleapis.com/assets-terranova-qa-module-core/listings/ba11810b-30fc-4061-b3f5-126e2aae0a95_standard", thumbnailURL := "https://storage.googleapis.com/assets-terranova-qa-module-core/listings/ba11810b-30fc-4061-b3f5-126e2aae0a95_thumbnail", mimeType := "image/jpeg" }],
    grossYield := (0.036 : Rat),
    madeVisibleAt := none },
  { id := 79,
    addressDetails := { addressLine1 := "37 John Snow Drive", addressLine2 := "", city := "Wallington", postcode := "SM6 4ER", shortenedPostcode := "SM6", country := "UK", region := "London" },
    propertyType := "apartment",
    bedrooms := 2, bathrooms := 1, sizeSqFt := 300,
    priceInCents := 10000000, minimumDepositInCents := 1000000, estimatedDepositInCents := 2500000,
    monthlyRentalIncomeInCents := 60000,
    isTenanted := true, isCashOnly := false, isNewBuild := false, isCompany := false, isShareSale := false,
    description := "test",
    photos := [{ originalURL := "https://storage.googleapis.com/assets-terranova-qa-module-core/listings/dc1c52ca-1061-4673-a3ae-92bd9098189d", standardURL := "https://storage.googleapis.com/assets-terranova-qa-module-core/listings/dc1c52ca-1061-4673-a3ae-92bd9098189d_standard", thumbnailURL := "https://storage.googleapis.com/assets-terranova-qa-module-core/listings/dc1c52ca-1061-4673-a3ae-92bd9098189d_thumbnail", mimeType := "image/jpeg" },
      { originalURL := "https://storage.googleapis.com/assets-terranova-qa-module-core/listings/82540ded-ea98-4279-a57d-742c0495ae73", standardURL := "https://storage.googleapis.com/assets-terranova-qa-module-core/listings/82540ded-ea98-4279-a57d-742c0495ae73_standard", thumbnailURL := "https://storage.googleapis.com/assets-terranova-qa-module-core/listings/82540ded-ea98-4279-a57d-742c0495ae73_thumbnail", mimeType := "image/jpeg" },
      { originalURL := "https://storage.googleapis.com/assets-terranova-qa-module-core/listings/bb5ad33a-717c-4525-beea-7f811fb828ef", standardURL := "https://storage.googleapis.com/assets-terranova-qa-module-core/listings/bb5ad33a-717c-4525-beea-7f811fb828ef_standard", thumbnailURL := "https://storage.googleapis.com/assets-terranova-qa-module-core/listings/bb5ad33a-717c-4525-beea-7f811fb828ef_thumbnail", mimeType := "image/jpeg" },
      { originalURL := "https://storage.googleapis.com/assets-terranova-qa-module-core/listings/57ef8821-1c60-4569-9999-21c23851d284", standardURL := "https://storage.googleapis.com/assets-terranova-qa-module-core/listings/57ef8821-1c60-4569-9999-21c23851d284_standard", thumbnailURL := "https://storage.googleapis.com/assets-terranova-qa-module-core/listings/57ef8821-1c60-4569-9999-21c23851d284_thumbnail", mimeType := "image/jpeg" }],
    grossYield := (0.072 : Rat),
    madeVisibleAt := some "2023-02-01T16:42:09Z" },
  { id := 80,
    addressDetails := { addressLine1 := "87 Scotts way", addressLine2 := "", city := "Edinburgh", postcode := "EH12 5AA", shortenedPostcode := "EH12", country := "UK", region := "Scotland" },
    propertyType := "apartment",
    bedrooms := 0, bathrooms := 1, sizeSqFt := 355,
    priceInCents := 23456700, minimumDepositInCents := 3000000, estimatedDepositInCents := 18798136,
    monthlyRentalIncomeInCents := 200000,
    isTenanted := true, isCashOnly := true, isNewBuild := false, isCompany := false, isShareSale := true,
    description := "Share Sale Test",
    photos := [{ originalURL := "https://storage.googleapis.com/assets-terranova-qa-module-core/listings/32cdb9d4-f02e-4d4c-84a0-35318874c9c7", standardURL := "https://storage.googleapis.com/assets-terranova-qa-module-core/listings/32cdb9d4-f02e-4d4c-84a0-35318874c9c7_standard", thumbnailURL := "https://storage.googleapis.com/assets-terranova-qa-module-core/listings/32cdb9d4-f02e-4d4c-84a0-35318874c9c7_thumbnail", mimeType := "image/jpeg" },
      { originalURL := "https://storage.googleapis.com/assets-terranova-qa-module-core/listings/ada31aac-71b6-4e89-b75b-20cbef617b8c", standardURL := "https://storage.googleapis.com/assets-terranova-qa-module-core/listings/ada31aac-71b6-4e89-b75b-20cbef617b8c_standard", thumbnailURL := "https://storage.googleapis.com/assets-terranova-qa-module-core/listings/ada31aac-71b6-4e89-b75b-20cbef617b8c_thumbnail", mimeType := "image/jpeg" }],
    grossYield := (0.102316 : Rat),
    madeVisibleAt := some "2023-02-01T16:52:50Z" },
  { id := 81,
    addressDetails := { addressLine1 := "202 Grunge street", addressLine2 := "", city := "Manchester", postcode := "M1 1AA", shortenedPostcode := "M1", country := "UK", region := "North West" },
    propertyType := "semi-detached",
    bedrooms := 3, bathrooms := 2, sizeSqFt := 789,
    priceInCents := 14400000, minimumDepositInCents := 5200000, estimatedDepositInCents := 3600000,
    monthlyRentalIncomeInCents := 200000,
    isTenanted := true, isCashOnly := false, isNewBuild := false, isCompany := true, isShareSale := true,
    description := "GG Company test",
    photos := [{ originalURL := "https://storage.googleapis.com/assets-terranova-qa-module-core/listings/44e55a81-c66e-48b6-abef-9b8cb3a5b674", standardURL := "https://storage.googleapis.com/assets-terranova-qa-module-core/listings/44e55a81-c66e-48b6-abef-9b8cb3a5b674_standard", thumbnailURL := "https://storage.googleapis.com/assets-terranova-qa-module-core/listings/44e55a81-c66e-48b6-abef-9b8cb3a5b674_thumbnail", mimeType := "image/jpeg" },
      { originalURL := "https://storage.googleapis.com/assets-terranova-qa-module-core/listings/f8fa432d-0306-4d2c-8d57-f33523372f26", standardURL := "https://storage.googleapis.com/assets-terranova-qa-module-core/listings/f8fa432d-0306-4d2c-8d57-f33523372f26_standard", thumbnailURL := "https://storage.googleapis.com/assets-terranova-qa-module-core/listings/f8fa432d-0306-4d2c-8d57-f33523372f26_thumbnail", mimeType := "image/jpeg" }],
    grossYield := (0.166667 : Rat),
    madeVisibleAt := some "2023-02-01T17:12:25Z" },
  { id := 82,
    addressDetails := { addressLine1 := "3 Knotting Lane", addressLine2 := "", city := "London", postcode := "W14 9AA", shortenedPostcode := "W14", country := "UK", region := "London" },
    propertyType := "terraced",
    bedrooms := 3, bathrooms := 3, sizeSqFt := 300,
    priceInCents := 100000000, minimumDepositInCents := 20000000, estimatedDepositInCents := 40827520,
    monthlyRentalIncomeInCents := 850000,
    isTenanted := false, isCashOnly := false, isNewBuild := false, isCompany := false, isShareSale := false,
    description := "Image test",
    photos := [{ originalURL := "https://storage.googleapis.com/assets-terranova-qa-module-core/listings/58e9d12f-95fd-4516-9611-cc6f4c828959", standardURL := "https://storage.googleapis.com/assets-terranova-qa-module-core/listings/58e9d12f-95fd-4516-9611-cc6f4c828959_standard", thumbnailURL := "https://storage.googleapis.com/assets-terranova-qa-module-core/listings/58e9d12f-95fd-4516-9611-cc6f4c828959_thumbnail", mimeType := "image/jpeg" },
      { originalURL := "https://storage.googleapis.com/assets-terranova-qa-module-core/listings/f8647f62-a6a2-4bb5-a3ac-b22759af1804", standardURL := "https://storage.googleapis.com/assets-terranova-qa-module-core/listings/f8647f62-a6a2-4bb5-a3ac-b22759af1804_standard", thumbnailURL := "https://storage.googleapis.com/assets-terranova-qa-module-core/listings/f8647f62-a6a2-4bb5-a3ac-b22759af1804_thumbnail", mimeType := "image/jpeg" },
      { originalURL := "https://storage.googleapis.com/assets-terranova-qa-module-core/listings/0ccd6f6a-9390-41b8-8102-8a205ffe73cd", standardURL := "https://storage.googleapis.com/assets-terranova-qa-module-core/listings/0ccd6f6a-9390-41b8-8102-8a205ffe73cd_standard", thumbnailURL := "https://storage.googleapis.com/assets-terranova-qa-module-core/listings/0ccd6f6a-9390-41b8-8102-8a205ffe73cd_thumbnail", mimeType := "image/jpeg" },
      { originalURL := "https://storage.googleapis.com/assets-terranova-qa-module-core/listings/fb1a1f3b-313d-45a4-b1d3-1ee5c5f21895", standardURL := "https://storage.googleapis.com/assets-terranova-qa-module-core/listings/fb1a1f3b-313d-45a4-b1d3-1ee5c5f21895_standard", thumbnailURL := "https://storage.googleapis.com/assets-terranova-qa-module-core/listings/fb1a1f3b-313d-45a4-b1d3-1ee5c5f21895_thumbnail", mimeType := "image/jpeg" },
      { originalURL := "https://storage.googleapis.com/assets-terranova-qa-module-core/listings/62ed85f1-00ac-40bd-9607-780f5245ce1e", standardURL := "https://storage.googleapis.com/assets-terranova-qa-module-core/listings/62ed85f1-00ac-40bd-9607-780f5245ce1e_standard", thumbnailURL := "https://storage.googleapis.com/assets-terranova-qa-module-core/listings/62ed85f1-00ac-40bd-9607-780f5245ce1e_thumbnail", mimeType := "image/jpeg" },
      { originalURL := "https://storage.googleapis.com/assets-terranova-qa-module-core/listings/a39d1c3b-8a93-4d9c-bdb4-d6cda911f8e4", standardURL := "https://storage.googleapis.com/assets-terranova-qa-module-core/listings/a39d1c3b-8a93-4d9c-bdb4-d6cda911f8e4_standard", thumbnailURL := "https://storage.googleapis.com/assets-terranova-qa-module-core/listings/a39d1c3b-8a93-4d9c-bdb4-d6cda911f8e4_thumbnail", mimeType := "image/jpeg" }],
    grossYield := (0.102 : Rat),
    madeVisibleAt := some "2023-02-02T08:36:00Z" },
  { id := 68,
    addressDetails := { addressLine1 := "27 Hill Road", addressLine2 := "", city := "Sheffield", postcode := "S1 2AB", shortenedPostcode := "S1", country := "UK", region := "North East" },
    propertyType := "apartment",
    bedrooms := 1, bathrooms := 1, sizeSqFt := 301,
    priceInCents := 13875000, minimumDepositInCents := 3468700, estimatedDepositInCents := 3468750,
    monthlyRentalIncomeInCents := 95100,
    isTenanted := true, isCashOnly := true, isNewBuild := false, isCompany := false, isShareSale := false,
    description := "This property can be purchased via shares with 0% SDLT - this purchase option is only available with GetGround! \n\nWhen you buy shares, you usually pay stamp duty tax of 0.5% on the price you pay for the claims. As the property continues to be owned by the company no SDLT is payable.\n\nThis modern studio apartment is ideal for young professionals in the heart of Sheffield city centre. This flat is already tenanted generating a strong 8.2% yield for investors to benefit from. The rent is assured until the end of Q2 2025.\n\nBeing just a 10-minute walk from Sheffield Sheaf Street, you have fantastic access to all of the North\x27s city hubs, with Manchester, Birmingham and Leeds all just a one-hour train journey away.",
    photos := [{ originalURL := "https://storage.googleapis.com/assets-terranova-qa-module-core/listings/48d16039-5857-471e-a8ee-d427441e2604", standardURL := "https://storage.googleapis.com/assets-terranova-qa-module-core/listings/48d16039-5857-471e-a8ee-d427441e2604_standard", thumbnailURL := "https://storage.googleapis.com/assets-terranova-qa-module-core/listings/48d16039-5857-471e-a8ee-d427441e2604_thumbnail", mimeType := "image/png" },
      { originalURL := "https://storage.googleapis.com/assets-terranova-qa-module-core/listings/bd4a9d7b-9416-4d61-b550-0b01f2e7fa72", standardURL := "https://storage.googleapis.com/assets-terranova-qa-module-core/listings/bd4a9d7b-9416-4d61-b550-0b01f2e7fa72_standard", thumbnailURL := "https://storage.googleapis.com/assets-terranova-qa-module-core/listings/bd4a9d7b-9416-4d61-b550-0b01f2e7fa72_thumbnail", mimeType := "image/jpeg" },
      { originalURL := "https://storage.googleapis.com/assets-terranova-qa-module-core/listings/fff510fd-33d5-41a4-ab95-a2d5033551c7", standardURL := "https://storage.googleapis.com/assets-terranova-qa-module-core/listings/fff510fd-33d5-41a4-ab95-a2d5033551c7_standard", thumbnailURL := "https://storage.googleapis.com/assets-terranova-qa-module-core/listings/fff510fd-33d5-41a4-ab95-a2d5033551c7_thumbnail", mimeType := "image/jpeg" },
      { originalURL := "https://storage.googleapis.com/assets-terranova-qa-module-core/listings/7538ea96-08e3-4ce1-8c2c-dbadc24f7622", standardURL := "https://storage.googleapis.com/assets-terranova-qa-module-core/listings/7538ea96-08e3-4ce1-8c2c-dbadc24f7622_standard", thumbnailURL := "https://storage.googleapis.com/assets-terranova-qa-module-core/listings/7538ea96-08e3-4ce1-8c2c-dbadc24f7622_thumbnail", mimeType := "image/jpeg" }],
    grossYield := (0.0822486 : Rat),
    madeVisibleAt := some "2023-09-27T08:14:37Z" },
  { id := 66,
    addressDetails := { addressLine1 := "67 Kansas Street", addressLine2 := "", city := "Preston", postcode := "PR1 2TT", shortenedPostcode := "PR1", country := "UK", region := "North West" },
    propertyType := "apartment",
    bedrooms := 2, bathrooms := 1, sizeSqFt := 686,
    priceInCents := 3995000, minimumDepositInCents := 3995000, estimatedDepositInCents := 998750,
    monthlyRentalIncomeInCents := 38000,
    isTenanted := true, isCashOnly := false, isNewBuild := false, isCompany := false, isShareSale := false,
    description := "2 bed flat in Preston with a rear terrace space and large garden area.",
    photos := [{ originalURL := "https://storage.googleapis.com/assets-terranova-qa-module-core/listings/5d4d5076-2cf3-4d09-8818-6a8fe0993530", standardURL := "https://storage.googleapis.com/assets-terranova-qa-module-core/listings/5d4d5076-2cf3-4d09-8818-6a8fe0993530_standard", thumbnailURL := "https://storage.googleapis.com/assets-terranova-qa-module-core/listings/5d4d5076-2cf3-4d09-8818-6a8fe0993530_thumbnail", mimeType := "image/jpeg" },
      { originalURL := "https://storage.googleapis.com/assets-terranova-qa-module-core/listings/cca8f249-5946-44d3-98f6-2b7f1ec0c286", standardURL := "https://storage.googleapis.com/assets-terranova-qa-module-core/listings/cca8f249-5946-44d3-98f6-2b7f1ec0c286_standard", thumbnailURL := "https://storage.googleapis.com/assets-terranova-qa-module-core/listings/cca8f249-5946-44d3-98f6-2b7f1ec0c286_thumbnail", mimeType := "image/jpeg" },
      { originalURL := "https://storage.googleapis.com/assets-terranova-qa-module-core/listings/5db35350-6efa-4c23-b1df-b8d2bdce32e3", standardURL := "https://storage.googleapis.com/assets-terranova-qa-module-core/listings/5db35350-6efa-4c23-b1df-b8d2bdce32e3_standard", thumbnailURL := "https://storage.googleapis.com/assets-terranova-qa-module-core/listings/5db35350-6efa-4c23-b1df-b8d2bdce32e3_thumbnail", mimeType := "image/jpeg" },
      { originalURL := "https://storage.googleapis.com/assets-terranova-qa-module-core/listings/bdc6a7da-4405-4721-a820-897f907cbcc7", standardURL := "https://storage.googleapis.com/assets-terranova-qa-module-core/listings/bdc6a7da-4405-4721-a820-897f907cbcc7_standard", thumbnailURL := "https://storage.googleapis.com/assets-terranova-qa-module-core/listings/bdc6a7da-4405-4721-a820-897f907cbcc7_thumbnail", mimeType := "image/jpeg" }],
    grossYield := (0.114143 : Rat),
    madeVisibleAt := some "2023-01-25T15:50:34Z" },
  { id := 71,
    addressDetails := { addressLine1 := "45 Larcher Street", addressLine2 := "", city := "Preston", postcode := "PR1 2AF", shortenedPostcode := "PR1", country := "UK", region := "North West" },
    propertyType := "apartment",
    bedrooms := 3, bathrooms := 1, sizeSqFt := 840,
    priceInCents := 88058000, minimumDepositInCents := 7014500, estimatedDepositInCents := 42397020,
    monthlyRentalIncomeInCents := 875400,
    isTenanted := false, isCashOnly := false, isNewBuild := false, isCompany := false, isShareSale := false,
    description := "Apt 170 sits on the eleventh floor and provides a great investment opportunity into a high specification apartment in a prime location that has been identified by local and national government as an area of great potential and has been extremely well funded in recent years. ",
    photos := [{ originalURL := "https://storage.googleapis.com/assets-terranova-qa-module-core/listings/26e7679c-5ba9-4c9c-ba54-858b400e6863", standardURL := "https://storage.googleapis.com/assets-terranova-qa-module-core/listings/26e7679c-5ba9-4c9c-ba54-858b400e6863_standard", thumbnailURL := "https://storage.googleapis.com/assets-terranova-qa-module-core/listings/26e7679c-5ba9-4c9c-ba54-858b400e6863_thumbnail", mimeType := "image/jpeg" },
      { originalURL := "https://storage.googleapis.com/assets-terranova-qa-module-core/listings/5bee58eb-5bbd-4329-b884-eea1dad850e1", standardURL := "https://storage.googleapis.com/assets-terranova-qa-module-core/listings/5bee58eb-5bbd-4329-b884-eea1dad850e1_standard", thumbnailURL := "https://storage.googleapis.com/assets-terranova-qa-module-core/listings/5bee58eb-5bbd-4329-b884-eea1dad850e1_thumbnail", mimeType := "image/jpeg" },
      { originalURL := "https://storage.googleapis.com/assets-terranova-qa-module-core/listings/b9ecaccd-964e-4adb-aec6-863bef629166", standardURL := "https://storage.googleapis.com/assets-terranova-qa-module-core/listings/b9ecaccd-964e-4adb-aec6-863bef629166_standard", thumbnailURL := "https://storage.googleapis.com/assets-terranova-qa-module-core/listings/b9ecaccd-964e-4adb-aec6-863bef629166_thumbnail", mimeType := "image/jpeg" },
      { originalURL := "https://storage.googleapis.com/assets-terranova-qa-module-core/listings/19c9fd2f-67dc-4b87-855f-f023bbbb4e85", standardURL := "https://storage.googleapis.com/assets-terranova-qa-module-core/listings/19c9fd2f-67dc-4b87-855f-f023bbbb4e85_standard", thumbnailURL := "https://storage.googleapis.com/assets-terranova-qa-module-core/listings/19c9fd2f-67dc-4b87-855f-f023bbbb4e85_thumbnail", mimeType := "image/jpeg" }],
    grossYield := (0.119294 : Rat),
    madeVisibleAt := some "2023-01-25T16:11:54Z" },
  { id := 72,
    addressDetails := { addressLine1 := "3 Button Street", addressLine2 := "", city := "Preston", postcode := "PR1 2AF", shortenedPostcode := "PR1", country := "UK", region := "North West" },
    propertyType := "apartment",
    bedrooms := 2, bathrooms := 1, sizeSqFt := 678,
    priceInCents := 22429100, minimumDepositInCents := 5607300, estimatedDepositInCents := 9514036,
    monthlyRentalIncomeInCents := 140200,
    isTenanted := false, isCashOnly := false, isNewBuild := false, isCompany := false, isShareSale := false,
    description := "Apt 53 situated in Block B is a high specification apartment that sits on the third floor. The development itself encompasses a beautiful roof garden, residents lounge, concierge service, bike storage and a state of the art gym to complete this premium home in a well invested area, resulting in a rapidly developing cultural and economic landscape. \n\n\nTEST",
    photos := [{ originalURL := "https://storage.googleapis.com/assets-terranova-qa-module-core/listings/5f3758df-98cb-427a-84f2-afc7ea6c40ca", standardURL := "https://storage.googleapis.com/assets-terranova-qa-module-core/listings/5f3758df-98cb-427a-84f2-afc7ea6c40ca_standard", thumbnailURL := "https://storage.googleapis.com/assets-terranova-qa-module-core/listings/5f3758df-98cb-427a-84f2-afc7ea6c40ca_thumbnail", mimeType := "image/jpeg" },
      { originalURL := "https://storage.googleapis.com/assets-terranova-qa-module-core/listings/35658a75-7f58-4549-8008-e2bbbdbdb20a", standardURL := "https://storage.googleapis.com/assets-terranova-qa-module-core/listings/35658a75-7f58-4549-8008-e2bbbdbdb20a_standard", thumbnailURL := "https://storage.googleapis.com/assets-terranova-qa-module-core/listings/35658a75-7f58-4549-8008-e2bbbdbdb20a_thumbnail", mimeType := "image/jpeg" },
      { originalURL := "https://storage.googleapis.com/assets-terranova-qa-module-core/listings/365fc59a-4b48-448e-a110-3b790df58db9", standardURL := "https://storage.googleapis.com/assets-terranova-qa-module-core/listings/365fc59a-4b48-448e-a110-3b790df58db9_standard", thumbnailURL := "https://storage.googleapis.com/assets-terranova-qa-module-core/listings/365fc59a-4b48-448e-a110-3b790df58db9_thumbnail", mimeType := "image/jpeg" }],
    grossYield := (0.0750097 : Rat),
    madeVisibleAt := some "2023-02-17T18:20:03Z" },
  { id := 105,
    addressDetails := { addressLine1 := "4 High Street", addressLine2 := "", city := "Wallington", postcode := "SM6 9AA", shortenedPostcode := "SM6", country := "UK", region := "South East" },
    propertyType := "apartment",
    bedrooms := 0, bathrooms := 1, sizeSqFt := 286,
    priceInCents := 52500000, minimumDepositInCents := 2500000, estimatedDepositInCents := 13125000,
    monthlyRentalIncomeInCents := 350000,
    isTenanted := true, isCashOnly := false, isNewBuild := false, isCompany := false, isShareSale := true,
    description := "ertggr rtg trtg etgtrgrt",
    photos := [{ originalURL := "https://storage.googleapis.com/assets-terranova-qa-module-core/listings/fa320e9c-cb0b-4c0d-be21-2b992ee6c126", standardURL := "https://storage.googleapis.com/assets-terranova-qa-module-core/listings/fa320e9c-cb0b-4c0d-be21-2b992ee6c126_standard", thumbnailURL := "https://storage.googleapis.com/assets-terranova-qa-module-core/listings/fa320e9c-cb0b-4c0d-be21-2b992ee6c126_thumbnail", mimeType := "image/png" }],
    grossYield := (0.08 : Rat),
    madeVisibleAt := some "2023-03-01T13:39:00Z" },
  { id := 106,
    addressDetails := { addressLine1 := "13 Cliff st", addressLine2 := "", city := "Dover", postcode := "", shortenedPostcode := "DOV", country := "UK", region := "South East" },
    propertyType := "apartment",
    bedrooms := 1, bathrooms := 2, sizeSqFt := 123,
    priceInCents := 12300000, minimumDepositInCents := 1230000, estimatedDepositInCents := 1500000,
    monthlyRentalIncomeInCents := 80000,
    isTenanted := true, isCashOnly := true, isNewBuild := false, isCompany := true, isShareSale := true,
    description := "UPDATE",
    photos := [{ originalURL := "https://storage.googleapis.com/assets-terranova-qa-module-core/listings/9db6de1b-88b9-4030-b944-bd15544a23ed", standardURL := "https://storage.googleapis.com/assets-terranova-qa-module-core/listings/9db6de1b-88b9-4030-b944-bd15544a23ed_standard", thumbnailURL := "https://storage.googleapis.com/assets-terranova-qa-module-core/listings/9db6de1b-88b9-4030-b944-bd15544a23ed_thumbnail", mimeType := "image/jpeg" },
      { originalURL := "https://storage.googleapis.com/assets-terranova-qa-module-core/listings/b71de69c-cfe3-41bf-8e80-a0a3602026fa", standardURL := "https://storage.googleapis.com/assets-terranova-qa-module-core/listings/b71de69c-cfe3-41bf-8e80-a0a3602026fa_standard", thumbnailURL := "https://storage.googleapis.com/assets-terranova-qa-module-core/listings/b71de69c-cfe3-41bf-8e80-a0a3602026fa_thumbnail", mimeType := "image/jpeg" }],
    grossYield := (0.0780488 : Rat),
    madeVisibleAt := none },
  { id := 120,
    addressDetails := { addressLine1 := "77 Regata Street", addressLine2 := "", city := "Henley", postcode := "RE1 1AA", shortenedPostcode := "RE1", country := "UK", region := "South East" },
    propertyType := "apartment",
    bedrooms := 0, bathrooms := 1, sizeSqFt := 400,
    priceInCents := 100000000, minimumDepositInCents := 10000000, estimatedDepositInCents := 25000000,
    monthlyRentalIncomeInCents := 700000,
    isTenanted := true, isCashOnly := false, isNewBuild := false, isCompany := false, isShareSale := false,
    description := "test",
    photos := [{ originalURL := "https://storage.googleapis.com/assets-terranova-qa-module-core/listings/86f3dadf-54bf-447c-a4fa-a8f067cf6aee", standardURL := "https://storage.googleapis.com/assets-terranova-qa-module-core/listings/86f3dadf-54bf-447c-a4fa-a8f067cf6aee_standard", thumbnailURL := "https://storage.googleapis.com/assets-terranova-qa-module-core/listings/86f3dadf-54bf-447c-a4fa-a8f067cf6aee_thumbnail", mimeType := "image/jpeg" }],
    grossYield := (0.084 : Rat),
    madeVisibleAt := some "2023-03-16T16:11:14Z" },
  { id := 91,
    addressDetails := { addressLine1 := "Animal Farm", addressLine2 := "", city := "Eastbourne", postcode := "BN20 1AA", shortenedPostcode := "BN20", country := "UK", region := "South East" },
    propertyType := "apartment",
    bedrooms := 0, bathrooms := 1, sizeSqFt := 789,
    priceInCents := 100000000, minimumDepositInCents := 10000000, estimatedDepositInCents := 25000000,
    monthlyRentalIncomeInCents := 700000,
    isTenanted := true, isCashOnly := false, isNewBuild := false, isCompany := false, isShareSale := false,
    description := "Lorem Ipsum is simply dummy text of the printing and typesetting industry. Lorem Ipsum has been the industry\x27s standard dummy text ever since the 1500s, when an unknown printer took a galley of type and scrambled it to make a type specimen book. It has survived not only five centuries, but also the leap into electronic typesetting, remaining essentially unchanged. It was popularised in the 1960s with the release of Letraset sheets containing Lorem Ipsum passages, and more recently with desktop publishing software like Aldus PageMaker including versions of Lorem Ipsum.",
    photos := [{ originalURL := "https://storage.googleapis.com/assets-terranova-qa-module-core/listings/8816708f-9d0d-4c24-bac9-dad96fef53f4", standardURL := "https://storage.googleapis.com/assets-terranova-qa-module-core/listings/8816708f-9d0d-4c24-bac9-dad96fef53f4_standard", thumbnailURL := "https://storage.googleapis.com/assets-terranova-qa-module-core/listings/8816708f-9d0d-4c24-bac9-dad96fef53f4_thumbnail", mimeType := "image/jpeg" }],
    grossYield := (0.084 : Rat),
    madeVisibleAt := some "2023-02-17T17:47:45Z" },
  { id := 94,
    addressDetails := { addressLine1 := "12 Alfie Solomons Way", addressLine2 := "", city := "London", postcode := "N1 8LN", shortenedPostcode := "N1", country := "UK", region := "London" },
    propertyType := "apartment",
    bedrooms := 2, bathrooms := 3, sizeSqFt := 1000,
    priceInCents := 125000, minimumDepositInCents := 10000, estimatedDepositInCents := 31250,
    monthlyRentalIncomeInCents := 1100,
    isTenanted := false, isCashOnly := true, isNewBuild := false, isCompany := true, isShareSale := true,
    description := "Free text",
    photos := [{ originalURL := "https://storage.googleapis.com/assets-terranova-qa-module-core/listings/bea385af-17c5-4369-bf94-be6b9570f4db", standardURL := "https://storage.googleapis.com/assets-terranova-qa-module-core/listings/bea385af-17c5-4369-bf94-be6b9570f4db_standard", thumbnailURL := "https://storage.googleapis.com/assets-terranova-qa-module-core/listings/bea385af-17c5-4369-bf94-be6b9570f4db_thumbnail", mimeType := "image/png" }],
    grossYield := (0.1056 : Rat),
    madeVisibleAt := some "2023-02-20T09:57:55Z" },
  { id := 97,
    addressDetails := { addressLine1 := "123 Rainbow Road", addressLine2 := "", city := "Brighton", postcode := "BN1 1AA", shortenedPostcode := "BN1", country := "UK", region := "South East" },
    propertyType := "apartment",
    bedrooms := 0, bathrooms := 1, sizeSqFt := 678,
    priceInCents := 50000000, minimumDepositInCents := 10000000, estimatedDepositInCents := 12000000,
    monthlyRentalIncomeInCents := 400000,
    isTenanted := true, isCashOnly := false, isNewBuild := false, isCompany := false, isShareSale := false,
    description := "0",
    photos := [{ originalURL := "https://storage.googleapis.com/assets-terranova-qa-module-core/listings/c836d323-7548-47fd-82e8-f1529c87e51e", standardURL := "https://storage.googleapis.com/assets-terranova-qa-module-core/listings/c836d323-7548-47fd-82e8-f1529c87e51e_standard", thumbnailURL := "https://storage.googleapis.com/assets-terranova-qa-module-core/listings/c836d323-7548-47fd-82e8-f1529c87e51e_thumbnail", mimeType := "image/jpeg" }],
    grossYield := (0.096 : Rat),
    madeVisibleAt := none },
  { id := 103,
    addressDetails := { addressLine1 := "4 Seaside Road", addressLine2 := "", city := "Whitstable", postcode := "CT5 1AB", shortenedPostcode := "CT5", country := "UK", region := "South East" },
    propertyType := "apartment",
    bedrooms := 0, bathrooms := 1, sizeSqFt := 300,
    priceInCents := 100000000, minimumDepositInCents := 10000000, estimatedDepositInCents := 12000000,
    monthlyRentalIncomeInCents := 100000,
    isTenanted := true, isCashOnly := true, isNewBuild := false, isCompany := true, isShareSale := false,
    description := "66666",
    photos := [{ originalURL := "https://storage.googleapis.com/assets-terranova-qa-module-core/listings/533f2688-23c2-4385-a272-0179f9d6b6db", standardURL := "https://storage.googleapis.com/assets-terranova-qa-module-core/listings/533f2688-23c2-4385-a272-0179f9d6b6db_standard", thumbnailURL := "https://storage.googleapis.com/assets-terranova-qa-module-core/listings/533f2688-23c2-4385-a272-0179f9d6b6db_thumbnail", mimeType := "image/jpeg" }],
    grossYield := (0.012 : Rat),
    madeVisibleAt := none },
  { id := 143,
    addressDetails := { addressLine1 := "3 Chaucer Road", addressLine2 := "", city := "Canterbury", postcode := "CT1 3RF", shortenedPostcode := "CT1", country := "UK", region := "South East" },
    propertyType := "apartment",
    bedrooms := 0, bathrooms := 1, sizeSqFt := 750,
    priceInCents := 20000000, minimumDepositInCents := 300000, estimatedDepositInCents := 500000,
    monthlyRentalIncomeInCents := 150000,
    isTenanted := true, isCashOnly := false, isNewBuild := false, isCompany := false, isShareSale := false,
    description := "Test ",
    photos := [{ originalURL := "https://storage.googleapis.com/assets-terranova-qa-module-core/listings/3a458a51-532c-456a-8814-5d488cac49f0", standardURL := "https://storage.googleapis.com/assets-terranova-qa-module-core/listings/3a458a51-532c-456a-8814-5d488cac49f0_standard", thumbnailURL := "https://storage.googleapis.com/assets-terranova-qa-module-core/listings/3a458a51-532c-456a-8814-5d488cac49f0_thumbnail", mimeType := "image/png" }],
    grossYield := (0.09 : Rat),
    madeVisibleAt := some "2023-03-27T11:01:38Z" },
  { id := 144,
    addressDetails := { addressLine1 := "115 Maidstone Road", addressLine2 := "", city := "Maidstone", postcode := "ME15 6AA", shortenedPostcode := "MDS", country := "UK", region := "South East" },
    propertyType := "apartment",
    bedrooms := 0, bathrooms := 1, sizeSqFt := 40,
    priceInCents := 15000000, minimumDepositInCents := 1000000, estimatedDepositInCents := 1500000,
    monthlyRentalIncomeInCents := 40000,
    isTenanted := true, isCashOnly := false, isNewBuild := false, isCompany := false, isShareSale := false,
    description := "Test",
    photos := [{ originalURL := "https://storage.googleapis.com/assets-terranova-qa-module-core/listings/0ee871a1-ecb8-43c7-aab0-30128baec351", standardURL := "https://storage.googleapis.com/assets-terranova-qa-module-core/listings/0ee871a1-ecb8-43c7-aab0-30128baec351_standard", thumbnailURL := "https://storage.googleapis.com/assets-terranova-qa-module-core/listings/0ee871a1-ecb8-43c7-aab0-30128baec351_thumbnail", mimeType := "image/png" }],
    grossYield := (0.032 : Rat),
    madeVisibleAt := some "2023-03-27T11:04:16Z" },
  { id := 148,
    addressDetails := { addressLine1 := "3 Buckingham Palace Road", addressLine2 := "", city := "London", postcode := "", shortenedPostcode := "W14 8FF", country := "UK", region := "London" },
    propertyType := "terraced",
    bedrooms := 3, bathrooms := 1, sizeSqFt := 32,
    priceInCents := 35000000, minimumDepositInCents := 10000000, estimatedDepositInCents := 8750000,
    monthlyRentalIncomeInCents := 400000,
    isTenanted := true, isCashOnly := false, isNewBuild := false, isCompany := false, isShareSale := false,
    description := "test",
    photos := [{ originalURL := "https://storage.googleapis.com/assets-terranova-qa-module-core/listings/70c29877-0654-49ed-8225-3189e81b7354", standardURL := "https://storage.googleapis.com/assets-terranova-qa-module-core/listings/70c29877-0654-49ed-8225-3189e81b7354_standard", thumbnailURL := "https://storage.googleapis.com/assets-terranova-qa-module-core/listings/70c29877-0654-49ed-8225-3189e81b7354_thumbnail", mimeType := "image/png" }],
    grossYield := (0.137143 : Rat),
    madeVisibleAt := some "2023-03-28T13:30:27Z" },
  { id := 145,
    addressDetails := { addressLine1 := "123 Main street", addressLine2 := "W14 9AA", city := "London", postcode := "", shortenedPostcode := "W14", country := "UK", region := "London" },
    propertyType := "apartment",
    bedrooms := 0, bathrooms := 1, sizeSqFt := 40,
    priceInCents := 25000000, minimumDepositInCents := 10000000, estimatedDepositInCents := 6250000,
    monthlyRentalIncomeInCents := 400000,
    isTenanted := true, isCashOnly := false, isNewBuild := false, isCompany := false, isShareSale := false,
    description := "Classic house right on main street!",
    photos := [{ originalURL := "https://storage.googleapis.com/assets-terranova-qa-module-core/listings/b73ac33d-b2de-4656-a92e-a7f4bde98b26", standardURL := "https://storage.googleapis.com/assets-terranova-qa-module-core/listings/b73ac33d-b2de-4656-a92e-a7f4bde98b26_standard", thumbnailURL := "https://storage.googleapis.com/assets-terranova-qa-module-core/listings/b73ac33d-b2de-4656-a92e-a7f4bde98b26_thumbnail", mimeType := "image/png" }],
    grossYield := (0.192 : Rat),
    madeVisibleAt := some "2023-03-27T12:36:10Z" },
  { id := 178,
    addressDetails := { addressLine1 := "331 High street", addressLine2 := "", city := "Spooky City", postcode := "", shortenedPostcode := "SW2", country := "UK", region := "London" },
    propertyType := "terraced",
    bedrooms := 3, bathrooms := 3, sizeSqFt := 200,
    priceInCents := 9999900, minimumDepositInCents := 999900, estimatedDepositInCents := 1050000,
    monthlyRentalIncomeInCents := 99900,
    isTenanted := true, isCashOnly := false, isNewBuild := false, isCompany := true, isShareSale := true,
    description := "Boo! You\x27ve found our ghost listing for this Halloween season. You might have fallen for our trick, but using our buy-to-let marketplace is a treat. Scroll through our properties for some scarily good yields.",
    photos := [{ originalURL := "https://storage.googleapis.com/assets-terranova-qa-module-core/listings/ab08a0af-0a78-4244-8f9e-985a517c85b4", standardURL := "https://storage.googleapis.com/assets-terranova-qa-module-core/listings/ab08a0af-0a78-4244-8f9e-985a517c85b4_standard", thumbnailURL := "https://storage.googleapis.com/assets-terranova-qa-module-core/listings/ab08a0af-0a78-4244-8f9e-985a517c85b4_thumbnail", mimeType := "image/jpeg" },
      { originalURL := "https://storage.googleapis.com/assets-terranova-qa-module-core/listings/e4df5172-4bde-4d7b-b11e-4ed8258c2bc6", standardURL := "https://storage.googleapis.com/assets-terranova-qa-module-core/listings/e4df5172-4bde-4d7b-b11e-4ed8258c2bc6_standard", thumbnailURL := "https://storage.googleapis.com/assets-terranova-qa-module-core/listings/e4df5172-4bde-4d7b-b11e-4ed8258c2bc6_thumbnail", mimeType := "image/jpeg" },
      { originalURL := "https://storage.googleapis.com/assets-terranova-qa-module-core/listings/4650d79c-196e-4a15-83ec-a146f8dbf64d", standardURL := "https://storage.googleapis.com/assets-terranova-qa-module-core/listings/4650d79c-196e-4a15-83ec-a146f8dbf64d_standard", thumbnailURL := "https://storage.googleapis.com/assets-terranova-qa-module-core/listings/4650d79c-196e-4a15-83ec-a146f8dbf64d_thumbnail", mimeType := "image/jpeg" },
      { originalURL := "https://storage.googleapis.com/assets-terranova-qa-module-core/listings/8779e7e5-4181-45b1-9d0f-f41e8a15dcd6", standardURL := "https://storage.googleapis.com/assets-terranova-qa-module-core/listings/8779e7e5-4181-45b1-9d0f-f41e8a15dcd6_standard", thumbnailURL := "https://storage.googleapis.com/assets-terranova-qa-module-core/listings/8779e7e5-4181-45b1-9d0f-f41e8a15dcd6_thumbnail", mimeType := "image/jpeg" }],
    grossYield := (0.119988 : Rat),
    madeVisibleAt := some "2023-10-13T13:15:07Z" },
  { id := 183,
    addressDetails := { addressLine1 := "1 Maidstone Road", addressLine2 := "", city := "Maidstone", postcode := "ME15 6AA", shortenedPostcode := "ME15", country := "UK", region := "South East" },
    propertyType := "apartment",
    bedrooms := 1, bathrooms := 1, sizeSqFt := 1234,
    priceInCents := 10000000, minimumDepositInCents := 2500000, estimatedDepositInCents := 2500000,
    monthlyRentalIncomeInCents := 150000,
    isTenanted := true, isCashOnly := false, isNewBuild := false, isCompany := false, isShareSale := false,
    description := "Apartment in central Maidstone",
    photos := [{ originalURL := "https://storage.googleapis.com/assets-terranova-qa-module-core/listings/2889f267-fd95-43fd-8745-45e4e02f1e59", standardURL := "https://storage.googleapis.com/assets-terranova-qa-module-core/listings/2889f267-fd95-43fd-8745-45e4e02f1e59_standard", thumbnailURL := "https://storage.googleapis.com/assets-terranova-qa-module-core/listings/2889f267-fd95-43fd-8745-45e4e02f1e59_thumbnail", mimeType := "image/jpeg" }],
    grossYield := (0.18 : Rat),
    madeVisibleAt := none },
  { id := 181,
    addressDetails := { addressLine1 := "5 Canterbury Road", addressLine2 := "", city := "Cantebury", postcode := "CT1 1AA", shortenedPostcode := "CT1", country := "UK", region := "South East" },
    propertyType := "apartment",
    bedrooms := 1, bathrooms := 1, sizeSqFt := 566,
    priceInCents := 25000000, minimumDepositInCents := 5000000, estimatedDepositInCents := 6500000,
    monthlyRentalIncomeInCents := 150000,
    isTenanted := true, isCashOnly := false, isNewBuild := false, isCompany := false, isShareSale := false,
    description := "Very slick apartment in Canterbury",
    photos := [{ originalURL := "https://storage.googleapis.com/assets-terranova-qa-module-core/listings/6306344f-423f-4e67-be20-207bdb11eed8", standardURL := "https://storage.googleapis.com/assets-terranova-qa-module-core/listings/6306344f-423f-4e67-be20-207bdb11eed8_standard", thumbnailURL := "https://storage.googleapis.com/assets-terranova-qa-module-core/listings/6306344f-423f-4e67-be20-207bdb11eed8_thumbnail", mimeType := "image/png" }],
    grossYield := (0.072 : Rat),
    madeVisibleAt := none }]

namespace ListingRepositoryImpl

/-- `addSampleData`: stores each sample under its own id and bumps the
counter past the largest id seen so far. -/
def addSampleData (r : ListingRepositoryImpl) : ListingRepositoryImpl :=
  sampleListings.foldl
    (fun acc listing =>
      { data := insertA acc.data listing.id listing,
        nextID := if listing.id ≥ acc.nextID then listing.id + 1 else acc.nextID })
    r

/-- `Create`: validates required address fields, property type and a
strictly positive price; assigns `nextID`, defaults a missing
`madeVisibleAt` to `now`, stores the record and advances the counter. -/
def create (r : ListingRepositoryImpl) (now : String) (listing : Listing) :
    ListingRepositoryImpl × Except String Listing :=
  if listing.addressDetails.city = "" then (r, .error "city is required")
  else if listing.addressDetails.shortenedPostcode = "" then
    (r, .error "shortened postcode is required")
  else if listing.addressDetails.region = "" then (r, .error "region is required")
  else if listing.propertyType = "" then (r, .error "property type is required")
  else if listing.priceInCents ≤ 0 then (r, .error "price must be greater than 0")
  else
    let l : Listing :=
      { listing with
        id := r.nextID,
        madeVisibleAt := match listing.madeVisibleAt with
          | none => some now
          | some t => some t }
    ({ data := insertA r.data l.id l, nextID := r.nextID + 1 }, .ok l)

/-- `GetByID`: returns the stored record itself (`return listing, nil`
— no copy is taken; see the heap model below for the aliasing this
causes). -/
def getByID (r : ListingRepositoryImpl) (id : Int) : Except String Listing :=
  match lookupA r.data id with
  | none => .error ("listing not found with id: " ++ toString id ++ ": not found")
  | some listing => .ok listing

/-- `GetAll`: every stored record, in map iteration order. -/
def getAll (r : ListingRepositoryImpl) : Except String (List Listing) :=
  .ok (r.data.map (fun p => p.2))

/-- `Update`: same validations as `Create`, requires the id to exist,
keeps a non-null stored `MadeVisibleAt` when the request carries null,
and replaces the record. -/
def update (r : ListingRepositoryImpl) (listing : Listing) :
    ListingRepositoryImpl × Except String Listing :=
  if listing.addressDetails.city = "" then (r, .error "city is required")
  else if listing.addressDetails.shortenedPostcode = "" then
    (r, .error "shortened postcode is required")
  else if listing.addressDetails.region = "" then (r, .error "region is required")
  else if listing.propertyType = "" then (r, .error "property type is required")
  else if listing.priceInCents ≤ 0 then (r, .error "price must be greater than 0")
  else
    match lookupA r.data listing.id with
    | none =>
      (r, .error ("listing not found with id: " ++ toString listing.id ++ ": not found"))
    | some existing =>
      let l : Listing :=
        if existing.madeVisibleAt.isSome && listing.madeVisibleAt.isNone then
          { listing with madeVisibleAt := existing.madeVisibleAt }
        else listing
      ({ r with data := insertA r.data listing.id l }, .ok l)

/-- `Delete`: requires the id to exist, then removes the record. -/
def delete (r : ListingRepositoryImpl) (id : Int) : ListingRepositoryImpl × Except String Unit :=
  match lookupA r.data id with
  | none =>
    (r, .error ("listing not found with id: " ++ toString id ++ ": not found"))
  | some _ => ({ r with data := eraseA r.data id }, .ok ())

/-- `GetFeatured` (documented in the source as deprecated): appends
every stored record, exactly as `GetAll` does. -/
def getFeatured (r : ListingRepositoryImpl) : Except String (List Listing) :=
  .ok (r.data.map (fun p => p.2))

/-- `GetByPriceRange`: full scan keeping records with
`minPrice <= price <= maxPrice`, both bounds inclusive. -/
def getByPriceRange (r : ListingRepositoryImpl) (minPrice maxPrice : Int) :
    Except String (List Listing) :=
  .ok ((r.data.map (fun p => p.2)).filter
    (fun listing => minPrice ≤ listing.priceInCents && listing.priceInCents ≤ maxPrice))

end ListingRepositoryImpl

/-- `NewListingRepository`: empty map, counter 1, then the sample data
is loaded. -/
def newListingRepository : ListingRepositoryImpl :=
  ListingRepositoryImpl.addSampleData { data := [], nextID := 1 }

/-! ## Error-kind taxonomy

The Go code reports failures as `errors.New(msg)` values; the spec's
three error kinds correspond exactly to the messages the repository
builds.  `NotFoundError`s are the ones built by wrapping
`errors.New("not found")`, whose rendered message therefore ends in
": not found". -/

/-- ValidationError: a required field is missing or the price domain
constraint is violated. -/
def isValidationError (e : String) : Bool :=
  e == "name is required" || e == "email is required" ||
  e == "city is required" || e == "shortened postcode is required" ||
  e == "region is required" || e == "property type is required" ||
  e == "price must be greater than 0"

/-- ConflictError: the email uniqueness violation. -/
def isConflictError (e : String) : Bool :=
  e == "email already exists"

/-- NotFoundError: a wrapped `errors.New("not found")`. -/
def isNotFoundError (e : String) : Bool :=
  ": not found".data.isSuffixOf e.data

/-! ## Operation sequences

For the history-dependent claims (identity monotonicity, reachable-state
invariants) a repository run is a fold of calls over the state.  The
trace records the identity assigned by each successful `Create`, in call
order. -/

/-- A call against the entity repository. -/
inductive EntityOp where
  | createOp (now : String) (x : ExampleModel)
  | updateOp (now : String) (x : ExampleModel)
  | deleteOp (id : Int)
  | getByIDOp (id : Int)
  | getAllOp

/-- One entity call: next state, plus the assigned identity when the
call was a successful `Create`. -/
def entityStep (s : ExampleRepositoryImpl) : EntityOp → ExampleRepositoryImpl × Option Int
  | .createOp now x =>
    match s.create now x with
    | (s', .ok ex) => (s', some ex.id)
    | (s', .error _) => (s', none)
  | .updateOp now x => ((s.update now x).1, none)
  | .deleteOp id => ((s.delete id).1, none)
  | .getByIDOp _ => (s, none)
  | .getAllOp => (s, none)

/-- Run a sequence of entity calls, collecting the assigned
identities. -/
def entityRun (s : ExampleRepositoryImpl) : List EntityOp → ExampleRepositoryImpl × List Int
  | [] => (s, [])
  | op :: ops =>
    let st := entityStep s op
    let rest := entityRun st.1 ops
    (rest.1, st.2.toList ++ rest.2)

/-- A call against the listing repository. -/
inductive ListingOp where
  | createOp (now : String) (x : Listing)
  | updateOp (x : Listing)
  | deleteOp (id : Int)
  | getByIDOp (id : Int)
  | getAllOp
  | getFeaturedOp
  | getByPriceRangeOp (minPrice maxPrice : Int)

/-- One listing call: next state, plus the assigned identity when the
call was a successful `Create`. -/
def listingStep (s : ListingRepositoryImpl) : ListingOp → ListingRepositoryImpl × Option Int
  | .createOp now x =>
    match s.create now x with
    | (s', .ok l) => (s', some l.id)
    | (s', .error _) => (s', none)
  | .updateOp x => ((s.update x).1, none)
  | .deleteOp id => ((s.delete id).1, none)
  | .getByIDOp _ => (s, none)
  | .getAllOp => (s, none)
  | .getFeaturedOp => (s, none)
  | .getByPriceRangeOp _ _ => (s, none)

/-- Run a sequence of listing calls, collecting the assigned
identities. -/
def listingRun (s : ListingRepositoryImpl) : List ListingOp → ListingRepositoryImpl × List Int
  | [] => (s, [])
  | op :: ops =>
    let st := listingStep s op
    let rest := listingRun st.1 ops
    (rest.1, st.2.toList ++ rest.2)

/-! ## Structural invariant (claim C9) -/

/-- Every stored pair is keyed by its record's own id, and the counter
is strictly above every stored id. -/
def entityInv (s : ExampleRepositoryImpl) : Prop :=
  ∀ q ∈ s.data, q.2.id = q.1 ∧ q.1 < s.nextID

/-- The listing-repository instance of the same invariant. -/
def listingInv (s : ListingRepositoryImpl) : Prop :=
  ∀ q ∈ s.data, q.2.id = q.1 ∧ q.1 < s.nextID

/-! ## Pointer-level (heap) model of the reads

The Go maps store pointers (`map[int64]*ExampleModel`,
`map[int64]*Listing`).  To state what a caller can do with the record a
read hands back, addresses are made explicit: a heap maps naturals to
records, the repository map stores addresses, and a caller mutation
through a received pointer is a heap write at its address.  `nextAddr`
is the allocation bound: every allocated cell lies strictly below it. -/

/-- Read a heap cell. -/
def heapRead {α : Type} (h : List (Nat × α)) (a : Nat) : Option α :=
  lookupA h a

/-- Overwrite a heap cell, as a caller holding a pointer to it may. -/
def heapWrite {α : Type} (h : List (Nat × α)) (a : Nat) (v : α) : List (Nat × α) :=
  insertA h a v

/-- Heap-level state of the entity repository. -/
structure ExampleHeapRepo where
  heap : List (Nat × ExampleModel)
  data : List (Int × Nat)
  nextAddr : Nat
deriving Repr, DecidableEq

/-- Stored pointers are live and all heap cells lie below the
allocation bound. -/
def ExampleHeapRepo.WF (r : ExampleHeapRepo) : Prop :=
  (∀ q ∈ r.heap, q.1 < r.nextAddr) ∧
  (∀ q ∈ r.data, (heapRead r.heap q.2).isSome = true)

/-- Heap-level entity `GetByID`: the source returns
`&ExampleModel{ID: example.ID, ...}` — a freshly allocated
field-by-field copy; the returned value is its address. -/
def ExampleHeapRepo.getByID (r : ExampleHeapRepo) (id : Int) :
    ExampleHeapRepo × Except String Nat :=
  match lookupA r.data id with
  | none => (r, .error ("example not found with id: " ++ toString id ++ ": not found"))
  | some addr =>
    match heapRead r.heap addr with
    | none => (r, .error "dangling pointer")
    | some e =>
      ({ r with
         heap := r.heap ++ [(r.nextAddr,
           { id := e.id, name := e.name, email := e.email,
             createdAt := e.createdAt, updatedAt := e.updatedAt })],
         nextAddr := r.nextAddr + 1 },
       .ok r.nextAddr)

/-- A caller mutating the entity record behind a pointer it holds. -/
def ExampleHeapRepo.mutateAt (r : ExampleHeapRepo) (a : Nat) (v : ExampleModel) :
    ExampleHeapRepo :=
  { r with heap := heapWrite r.heap a v }

/-- The record the store holds for an id: dereference its stored
pointer. -/
def ExampleHeapRepo.storedValue (r : ExampleHeapRepo) (id : Int) : Option ExampleModel :=
  (lookupA r.data id).bind (fun a => heapRead r.heap a)

/-- The loop of heap-level entity `GetAll`: for every stored pointer
the source appends `&ExampleModel{ID: example.ID, ...}` — a freshly
allocated field-by-field copy.  The result collects the fresh
addresses, in map iteration order.  (A dangling stored pointer, which
cannot arise, is skipped.) -/
def ExampleHeapRepo.getAllLoop (r : ExampleHeapRepo) :
    List (Int × Nat) → ExampleHeapRepo × List Nat
  | [] => (r, [])
  | q :: rest =>
    match heapRead r.heap q.2 with
    | none => r.getAllLoop rest
    | some e =>
      let r1 : ExampleHeapRepo :=
        { r with
          heap := r.heap ++ [(r.nextAddr,
            { id := e.id, name := e.name, email := e.email,
              createdAt := e.createdAt, updatedAt := e.updatedAt })],
          nextAddr := r.nextAddr + 1 }
      let res := r1.getAllLoop rest
      (res.1, r.nextAddr :: res.2)

/-- Heap-level entity `GetAll`: one fresh copy per stored record. -/
def ExampleHeapRepo.getAll (r : ExampleHeapRepo) : ExampleHeapRepo × List Nat :=
  r.getAllLoop r.data

/-- Heap-level state of the listing repository. -/
structure ListingHeapRepo where
  heap : List (Nat × Listing)
  data : List (Int × Nat)
  nextID : Int
  nextAddr : Nat
deriving Repr, DecidableEq

/-- Heap-level listing `Create`: the caller's record occupies a fresh
cell; `Create` writes the id (and the defaulted `madeVisibleAt`)
through that pointer and stores the pointer itself in the map. -/
def ListingHeapRepo.create (r : ListingHeapRepo) (now : String) (x : Listing) :
    ListingHeapRepo × Except String Int :=
  if x.addressDetails.city = "" then (r, .error "city is required")
  else if x.addressDetails.shortenedPostcode = "" then
    (r, .error "shortened postcode is required")
  else if x.addressDetails.region = "" then (r, .error "region is required")
  else if x.propertyType = "" then (r, .error "property type is required")
  else if x.priceInCents ≤ 0 then (r, .error "price must be greater than 0")
  else
    let l : Listing :=
      { x with
        id := r.nextID,
        madeVisibleAt := match x.madeVisibleAt with
          | none => some now
          | some t => some t }
    ({ heap := r.heap ++ [(r.nextAddr, l)],
       data := insertA r.data l.id r.nextAddr,
       nextID := r.nextID + 1,
       nextAddr := r.nextAddr + 1 },
     .ok l.id)

/-- Heap-level listing `GetByID`: `return listing, nil` hands back the
pointer stored in the map itself — no copy is made. -/
def ListingHeapRepo.getByID (r : ListingHeapRepo) (id : Int) : Except String Nat :=
  match lookupA r.data id with
  | none => .error ("listing not found with id: " ++ toString id ++ ": not found")
  | some addr => .ok addr

/-- A caller mutating the listing record behind a pointer it holds. -/
def ListingHeapRepo.mutateAt (r : ListingHeapRepo) (a : Nat) (v : Listing) :
    ListingHeapRepo :=
  { r with heap := heapWrite r.heap a v }

/-- The record a caller observes from listing `GetByID`: dereference
the returned pointer. -/
def ListingHeapRepo.getByIDValue (r : ListingHeapRepo) (id : Int) : Option Listing :=
  match r.getByID id with
  | .ok a => heapRead r.heap a
  | .error _ => none

/-- Heap-level listing `GetAll`: the source loop appends every stored
pointer as-is (`listings = append(listings, listing)`), so the caller
receives exactly the stored addresses, in map iteration order. -/
def ListingHeapRepo.getAll (r : ListingHeapRepo) : List Nat :=
  r.data.map (fun q => q.2)

/-- The record the listing store holds for an id: dereference its
stored pointer. -/
def ListingHeapRepo.storedValue (r : ListingHeapRepo) (id : Int) : Option Listing :=
  (lookupA r.data id).bind (fun a => heapRead r.heap a)

/-- A valid listing request, mirroring the "valid listing" fixture of
the repository's own tests (non-empty city/postcode/region/type,
positive price). -/
def testListingReq : Listing :=
  { id := 0,
    addressDetails := { addressLine1 := "", addressLine2 := "", city := "London",
                        postcode := "", shortenedPostcode := "W1", country := "UK",
                        region := "South East" },
    bedrooms := 1, bathrooms := 1, description := "", grossYield := 0,
    isCashOnly := false, isCompany := false, isNewBuild := false,
    isShareSale := false, isTenanted := false,
    madeVisibleAt := some "2023-01-01T00:00:00Z",
    estimatedDepositInCents := 0, minimumDepositInCents := 0, photos := [],
    priceInCents := 10000000, propertyType := "apartment",
    monthlyRentalIncomeInCents := 0, sizeSqFt := 0 }

def testExampleReq : ExampleModel :=
  { id := 0, name := "Ann", email := "ann@example.com", createdAt := "", updatedAt := "" }

def listingStoredFix : Listing := { testListingReq with id := 1 }

def listingRepoFix : ListingRepositoryImpl := { data := [(1, listingStoredFix)], nextID := 2 }

def listingUpdateReq : Listing :=
  { testListingReq with id := 1, madeVisibleAt := none, description := "updated" }

def testExampleStored : ExampleModel :=
  { id := 1, name := "Ann", email := "ann@example.com", createdAt := "t0", updatedAt := "t0" }

def exampleHeapFix : ExampleHeapRepo :=
  { heap := [(0, testExampleStored)], data := [(1, 0)], nextAddr := 1 }

def mutatedExample : ExampleModel := { testExampleStored with name := "Mallory" }

def listingHeapFix : ListingHeapRepo :=
  (({ heap := [], data := [], nextID := 1, nextAddr := 0 } : ListingHeapRepo).create
    "2024-01-01T00:00:00Z" testListingReq).1

def mutatedListing : Listing := { testListingReq with id := 1, description := "mutated" }

theorem lookupA_insertA_self {κ α : Type} [DecidableEq κ] (m : List (κ × α)) (k : κ) (v : α) :
    lookupA (insertA m k v) k = some v := by
  induction m with
  | nil => simp [insertA, lookupA]
  | cons p rest ih =>
    by_cases h : p.1 = k
    · simp [insertA, lookupA, h]
    · simp [insertA, lookupA, h, ih]

theorem lookupA_insertA_ne {κ α : Type} [DecidableEq κ] (m : List (κ × α)) (k k' : κ) (v : α)
    (h : k ≠ k') : lookupA (insertA m k v) k' = lookupA m k' := by
  induction m with
  | nil => simp [insertA, lookupA, h]
  | cons p rest ih =>
    by_cases hp : p.1 = k
    · have hp' : p.1 ≠ k' := by rw [hp]; exact h
      simp [insertA, lookupA, hp, hp', h]
    · by_cases hp' : p.1 = k'
      · have h' : k' ≠ k := Ne.symm h
        simp [insertA, lookupA, hp, hp', h']
      · simp [insertA, lookupA, hp, hp', ih]

theorem mem_insertA {κ α : Type} [DecidableEq κ] (m : List (κ × α)) (k : κ) (v : α)
    (q : κ × α) (hq : q ∈ insertA m k v) : q = (k, v) ∨ q ∈ m := by
  induction m with
  | nil =>
    simp [insertA] at hq
    exact Or.inl hq
  | cons p rest ih =>
    by_cases h : p.1 = k
    · simp [insertA, h] at hq
      rcases hq with hq | hq
      · exact Or.inl hq
      · exact Or.inr (List.mem_cons_of_mem _ hq)
    · simp [insertA, h] at hq
      rcases hq with hq | hq
      · exact Or.inr (by simp [hq])
      · rcases ih hq with h1 | h1
        · exact Or.inl h1
        · exact Or.inr (List.mem_cons_of_mem _ h1)

theorem mem_eraseA {κ α : Type} [DecidableEq κ] (m : List (κ × α)) (k : κ)
    (q : κ × α) (hq : q ∈ eraseA m k) : q ∈ m := by
  exact List.mem_of_mem_filter hq

theorem lookupA_mem {κ α : Type} [DecidableEq κ] (m : List (κ × α)) (k : κ) (v : α)
    (h : lookupA m k = some v) : (k, v) ∈ m := by
  induction m with
  | nil => simp [lookupA] at h
  | cons p rest ih =>
    by_cases hp : p.1 = k
    · simp [lookupA, hp] at h
      subst h
      have hpk : p = (k, p.2) := by
        rw [Prod.ext_iff]
        exact ⟨hp, rfl⟩
      rw [← hpk]
      exact List.mem_cons_self p rest
    · simp [lookupA, hp] at h
      exact List.mem_cons_of_mem _ (ih h)

theorem lookupA_append_left {κ α : Type} [DecidableEq κ] (m m' : List (κ × α)) (k : κ) (v : α)
    (h : lookupA m k = some v) : lookupA (m ++ m') k = some v := by
  induction m with
  | nil => simp [lookupA] at h
  | cons p rest ih =>
    by_cases hp : p.1 = k
    · simp [lookupA, hp] at h ⊢
      exact h
    · simp [lookupA, hp] at h ⊢
      exact ih h

/-- The entity `GetAll` loop does not touch the map, only appends
fresh cells to the heap, never lowers the allocation bound, and every
address it hands out is at or above the starting allocation bound. -/
theorem exampleHeap_getAllLoop_spec (ds : List (Int × Nat)) (r : ExampleHeapRepo) :
    (r.getAllLoop ds).1.data = r.data ∧
    (∃ ext, (r.getAllLoop ds).1.heap = r.heap ++ ext) ∧
    r.nextAddr ≤ (r.getAllLoop ds).1.nextAddr ∧
    (∀ a ∈ (r.getAllLoop ds).2, r.nextAddr ≤ a) := by
  induction ds generalizing r with
  | nil =>
    refine ⟨rfl, ⟨[], by simp [ExampleHeapRepo.getAllLoop]⟩, le_refl _, ?_⟩
    simp [ExampleHeapRepo.getAllLoop]
  | cons q rest ih =>
    rcases hh : heapRead r.heap q.2 with _ | e
    · simp only [ExampleHeapRepo.getAllLoop, hh]
      exact ih r
    · have ih1 := ih { r with
        heap := r.heap ++ [(r.nextAddr,
          { id := e.id, name := e.name, email := e.email,
            createdAt := e.createdAt, updatedAt := e.updatedAt })],
        nextAddr := r.nextAddr + 1 }
      obtain ⟨hdata, ⟨ext, hheap⟩, hle, htr⟩ := ih1
      simp only [ExampleHeapRepo.getAllLoop, hh]
      refine ⟨hdata, ?_, ?_, ?_⟩
      · refine ⟨(r.nextAddr,
          { id := e.id, name := e.name, email := e.email,
            createdAt := e.createdAt, updatedAt := e.updatedAt }) :: ext, ?_⟩
        rw [hheap]
        simp
      · simp only at hle
        omega
      · intro a ha
        rcases List.mem_cons.mp ha with rfl | ha'
        · exact le_refl _
        · have := htr a ha'
          simp only at this
          omega

/-! ## Per-operation helper lemmas -/

theorem entity_create_error_eq (s : ExampleRepositoryImpl) (now : String) (x : ExampleModel)
    (s' : ExampleRepositoryImpl) (e : String)
    (h : s.create now x = (s', .error e)) : s' = s := by
  unfold ExampleRepositoryImpl.create at h
  repeat' split at h
  all_goals simp_all

theorem entity_update_error_eq (s : ExampleRepositoryImpl) (now : String) (x : ExampleModel)
    (s' : ExampleRepositoryImpl) (e : String)
    (h : s.update now x = (s', .error e)) : s' = s := by
  unfold ExampleRepositoryImpl.update at h
  repeat' split at h
  all_goals simp_all

theorem entity_delete_error_eq (s : ExampleRepositoryImpl) (id : Int)
    (s' : ExampleRepositoryImpl) (e : String)
    (h : s.delete id = (s', .error e)) : s' = s := by
  unfold ExampleRepositoryImpl.delete at h
  repeat' split at h
  all_goals simp_all

theorem listing_create_error_eq (s : ListingRepositoryImpl) (now : String) (x : Listing)
    (s' : ListingRepositoryImpl) (e : String)
    (h : s.create now x = (s', .error e)) : s' = s := by
  unfold ListingRepositoryImpl.create at h
  repeat' split at h
  all_goals simp_all

theorem listing_update_error_eq (s : ListingRepositoryImpl) (x : Listing)
    (s' : ListingRepositoryImpl) (e : String)
    (h : s.update x = (s', .error e)) : s' = s := by
  unfold ListingRepositoryImpl.update at h
  repeat' split at h
  all_goals simp_all

theorem listing_delete_error_eq (s : ListingRepositoryImpl) (id : Int)
    (s' : ListingRepositoryImpl) (e : String)
    (h : s.delete id = (s', .error e)) : s' = s := by
  unfold ListingRepositoryImpl.delete at h
  repeat' split at h
  all_goals simp_all

theorem entity_create_ok_eq (s : ExampleRepositoryImpl) (now : String) (x : ExampleModel)
    (s' : ExampleRepositoryImpl) (ex : ExampleModel)
    (h : s.create now x = (s', .ok ex)) :
    ex = { x with id := s.nextID, createdAt := now, updatedAt := now } ∧
    s' = { data := insertA s.data s.nextID ex, nextID := s.nextID + 1 } := by
  unfold ExampleRepositoryImpl.create at h
  repeat' split at h
  all_goals simp_all
  obtain ⟨h1, h2⟩ := h
  subst h2
  exact h1.symm

theorem entity_update_nextID (s : ExampleRepositoryImpl) (now : String) (x : ExampleModel) :
    (s.update now x).1.nextID = s.nextID := by
  unfold ExampleRepositoryImpl.update
  repeat' split
  all_goals rfl

theorem entity_delete_nextID (s : ExampleRepositoryImpl) (id : Int) :
    (s.delete id).1.nextID = s.nextID := by
  unfold ExampleRepositoryImpl.delete
  repeat' split
  all_goals rfl

theorem listing_create_ok_eq (s : ListingRepositoryImpl) (now : String) (x : Listing)
    (s' : ListingRepositoryImpl) (l : Listing)
    (h : s.create now x = (s', .ok l)) :
    l = { x with
          id := s.nextID,
          madeVisibleAt := (match x.madeVisibleAt with
            | none => some now
            | some t => some t) } ∧
    s' = { data := insertA s.data s.nextID l, nextID := s.nextID + 1 } := by
  unfold ListingRepositoryImpl.create at h
  repeat' split at h
  all_goals simp_all
  all_goals obtain ⟨h1, h2⟩ := h
  all_goals subst h2
  all_goals exact h1.symm

theorem listing_update_nextID (s : ListingRepositoryImpl) (x : Listing) :
    (s.update x).1.nextID = s.nextID := by
  unfold ListingRepositoryImpl.update
  repeat' split
  all_goals rfl

theorem listing_delete_nextID (s : ListingRepositoryImpl) (id : Int) :
    (s.delete id).1.nextID = s.nextID := by
  unfold ListingRepositoryImpl.delete
  repeat' split
  all_goals rfl

theorem entity_update_ok_eq (s : ExampleRepositoryImpl) (now : String) (x : ExampleModel)
    (s' : ExampleRepositoryImpl) (ex : ExampleModel)
    (h : s.update now x = (s', .ok ex)) :
    ∃ existing, lookupA s.data x.id = some existing ∧
      ex = { x with createdAt := existing.createdAt, updatedAt := now } ∧
      s' = { s with data := insertA s.data x.id ex } := by
  unfold ExampleRepositoryImpl.update at h
  repeat' split at h
  all_goals simp_all
  obtain ⟨h1, h2⟩ := h
  subst h2
  exact h1.symm

theorem entity_delete_ok_eq (s : ExampleRepositoryImpl) (id : Int)
    (s' : ExampleRepositoryImpl) (u : Unit)
    (h : s.delete id = (s', .ok u)) :
    s' = { s with data := eraseA s.data id } := by
  unfold ExampleRepositoryImpl.delete at h
  repeat' split at h
  all_goals simp_all

theorem listing_update_ok_id (s : ListingRepositoryImpl) (x : Listing)
    (s' : ListingRepositoryImpl) (l : Listing)
    (h : s.update x = (s', .ok l)) :
    l.id = x.id ∧ ∃ existing, lookupA s.data x.id = some existing ∧
      s' = { s with data := insertA s.data x.id l } := by
  unfold ListingRepositoryImpl.update at h
  repeat' split at h
  all_goals simp_all
  all_goals obtain ⟨h1, h2⟩ := h
  all_goals subst h2
  all_goals simp_all

theorem listing_update_sticky_eq (s : ListingRepositoryImpl) (x : Listing)
    (stored : Listing) (T : String)
    (hstored : lookupA s.data x.id = some stored)
    (hT : stored.madeVisibleAt = some T)
    (hnull : x.madeVisibleAt = none)
    (s' : ListingRepositoryImpl) (l : Listing)
    (h : s.update x = (s', .ok l)) :
    l = { x with madeVisibleAt := some T } ∧
    s' = { s with data := insertA s.data x.id l } := by
  unfold ListingRepositoryImpl.update at h
  repeat' split at h
  all_goals simp_all
  all_goals obtain ⟨h1, h2⟩ := h
  all_goals subst h2
  all_goals simp_all

theorem listing_delete_ok_eq (s : ListingRepositoryImpl) (id : Int)
    (s' : ListingRepositoryImpl) (u : Unit)
    (h : s.delete id = (s', .ok u)) :
    s' = { s with data := eraseA s.data id } := by
  unfold ListingRepositoryImpl.delete at h
  repeat' split at h
  all_goals simp_all

theorem entityStep_assigned (s : ExampleRepositoryImpl) (op : EntityOp) :
    ((entityStep s op).2 = none ∧ (entityStep s op).1.nextID = s.nextID) ∨
    ((entityStep s op).2 = some s.nextID ∧ (entityStep s op).1.nextID = s.nextID + 1) := by
  cases op with
  | createOp now x =>
    rcases h : s.create now x with ⟨s', res⟩
    cases res with
    | error e =>
      have hs : s' = s := entity_create_error_eq s now x s' e h
      left
      simp [entityStep, h, hs]
    | ok ex =>
      obtain ⟨hex, hs⟩ := entity_create_ok_eq s now x s' ex h
      right
      subst hex
      simp [entityStep, h, hs]
  | updateOp now x => exact Or.inl ⟨rfl, entity_update_nextID s now x⟩
  | deleteOp id => exact Or.inl ⟨rfl, entity_delete_nextID s id⟩
  | getByIDOp id => exact Or.inl ⟨rfl, rfl⟩
  | getAllOp => exact Or.inl ⟨rfl, rfl⟩

theorem listingStep_assigned (s : ListingRepositoryImpl) (op : ListingOp) :
    ((listingStep s op).2 = none ∧ (listingStep s op).1.nextID = s.nextID) ∨
    ((listingStep s op).2 = some s.nextID ∧ (listingStep s op).1.nextID = s.nextID + 1) := by
  cases op with
  | createOp now x =>
    rcases h : s.create now x with ⟨s', res⟩
    cases res with
    | error e =>
      have hs : s' = s := listing_create_error_eq s now x s' e h
      left
      simp [listingStep, h, hs]
    | ok l =>
      obtain ⟨hl, hs⟩ := listing_create_ok_eq s now x s' l h
      right
      subst hl
      simp [listingStep, h, hs]
  | updateOp x => exact Or.inl ⟨rfl, listing_update_nextID s x⟩
  | deleteOp id => exact Or.inl ⟨rfl, listing_delete_nextID s id⟩
  | getByIDOp id => exact Or.inl ⟨rfl, rfl⟩
  | getAllOp => exact Or.inl ⟨rfl, rfl⟩
  | getFeaturedOp => exact Or.inl ⟨rfl, rfl⟩
  | getByPriceRangeOp a b => exact Or.inl ⟨rfl, rfl⟩

theorem entityRun_trace_facts (ops : List EntityOp) (s : ExampleRepositoryImpl) :
    List.Sorted (· < ·) (entityRun s ops).2 ∧
    (∀ i ∈ (entityRun s ops).2, s.nextID ≤ i) ∧
    s.nextID ≤ (entityRun s ops).1.nextID := by
  induction ops generalizing s with
  | nil => simp [entityRun]
  | cons op ops ih =>
    obtain ⟨hsort, hlb, hfin⟩ := ih (entityStep s op).1
    rcases entityStep_assigned s op with ⟨h2, hn⟩ | ⟨h2, hn⟩
    · rw [hn] at hlb hfin
      simp only [entityRun, h2, Option.toList_none, List.nil_append]
      exact ⟨hsort, hlb, hfin⟩
    · rw [hn] at hlb hfin
      simp only [entityRun, h2, Option.toList_some, List.singleton_append]
      refine ⟨?_, ?_, by omega⟩
      · rw [List.sorted_cons]
        exact ⟨fun b hb => by have := hlb b hb; omega, hsort⟩
      · intro i hi
        rcases List.mem_cons.mp hi with rfl | hi'
        · omega
        · have := hlb i hi'
          omega

theorem listingRun_trace_facts (ops : List ListingOp) (s : ListingRepositoryImpl) :
    List.Sorted (· < ·) (listingRun s ops).2 ∧
    (∀ i ∈ (listingRun s ops).2, s.nextID ≤ i) ∧
    s.nextID ≤ (listingRun s ops).1.nextID := by
  induction ops generalizing s with
  | nil => simp [listingRun]
  | cons op ops ih =>
    obtain ⟨hsort, hlb, hfin⟩ := ih (listingStep s op).1
    rcases listingStep_assigned s op with ⟨h2, hn⟩ | ⟨h2, hn⟩
    · rw [hn] at hlb hfin
      simp only [listingRun, h2, Option.toList_none, List.nil_append]
      exact ⟨hsort, hlb, hfin⟩
    · rw [hn] at hlb hfin
      simp only [listingRun, h2, Option.toList_some, List.singleton_append]
      refine ⟨?_, ?_, by omega⟩
      · rw [List.sorted_cons]
        exact ⟨fun b hb => by have := hlb b hb; omega, hsort⟩
      · intro i hi
        rcases List.mem_cons.mp hi with rfl | hi'
        · omega
        · have := hlb i hi'
          omega

theorem entityStep_inv (s : ExampleRepositoryImpl) (op : EntityOp)
    (hinv : entityInv s) : entityInv (entityStep s op).1 := by
  cases op with
  | createOp now x =>
    rcases h : s.create now x with ⟨s', res⟩
    cases res with
    | error e =>
      have hs : s' = s := entity_create_error_eq s now x s' e h
      simpa [entityStep, h, hs] using hinv
    | ok ex =>
      obtain ⟨hex, hs⟩ := entity_create_ok_eq s now x s' ex h
      have hstep : (entityStep s (EntityOp.createOp now x)).1 = s' := by
        simp [entityStep, h]
      rw [hstep, hs]
      intro q hq
      rcases mem_insertA _ _ _ _ hq with rfl | hq'
      · refine ⟨?_, ?_⟩
        · subst hex
          rfl
        · show s.nextID < s.nextID + 1
          omega
      · have hold := hinv q hq'
        refine ⟨hold.1, ?_⟩
        show q.1 < s.nextID + 1
        have := hold.2
        omega
  | updateOp now x =>
    rcases h : s.update now x with ⟨s', res⟩
    cases res with
    | error e =>
      have hs : s' = s := entity_update_error_eq s now x s' e h
      have hstep : (entityStep s (EntityOp.updateOp now x)).1 = s' := by
        simp [entityStep, h]
      rw [hstep, hs]
      exact hinv
    | ok ex =>
      obtain ⟨existing, hlook, hex, hs⟩ := entity_update_ok_eq s now x s' ex h
      have hstep : (entityStep s (EntityOp.updateOp now x)).1 = s' := by
        simp [entityStep, h]
      rw [hstep, hs]
      intro q hq
      rcases mem_insertA _ _ _ _ hq with rfl | hq'
      · refine ⟨?_, ?_⟩
        · subst hex
          rfl
        · show x.id < s.nextID
          exact (hinv (x.id, existing) (lookupA_mem _ _ _ hlook)).2
      · exact hinv q hq'
  | deleteOp id =>
    rcases h : s.delete id with ⟨s', res⟩
    cases res with
    | error e =>
      have hs : s' = s := entity_delete_error_eq s id s' e h
      have hstep : (entityStep s (EntityOp.deleteOp id)).1 = s' := by
        simp [entityStep, h]
      rw [hstep, hs]
      exact hinv
    | ok u =>
      have hs := entity_delete_ok_eq s id s' u h
      have hstep : (entityStep s (EntityOp.deleteOp id)).1 = s' := by
        simp [entityStep, h]
      rw [hstep, hs]
      intro q hq
      exact hinv q (mem_eraseA _ _ _ hq)
  | getByIDOp id => exact hinv
  | getAllOp => exact hinv

theorem listingStep_inv (s : ListingRepositoryImpl) (op : ListingOp)
    (hinv : listingInv s) : listingInv (listingStep s op).1 := by
  cases op with
  | createOp now x =>
    rcases h : s.create now x with ⟨s', res⟩
    cases res with
    | error e =>
      have hs : s' = s := listing_create_error_eq s now x s' e h
      simpa [listingStep, h, hs] using hinv
    | ok l =>
      obtain ⟨hl, hs⟩ := listing_create_ok_eq s now x s' l h
      have hstep : (listingStep s (ListingOp.createOp now x)).1 = s' := by
        simp [listingStep, h]
      rw [hstep, hs]
      intro q hq
      rcases mem_insertA _ _ _ _ hq with rfl | hq'
      · refine ⟨?_, ?_⟩
        · subst hl
          rfl
        · show s.nextID < s.nextID + 1
          omega
      · have hold := hinv q hq'
        refine ⟨hold.1, ?_⟩
        show q.1 < s.nextID + 1
        have := hold.2
        omega
  | updateOp x =>
    rcases h : s.update x with ⟨s', res⟩
    cases res with
    | error e =>
      have hs : s' = s := listing_update_error_eq s x s' e h
      have hstep : (listingStep s (ListingOp.updateOp x)).1 = s' := by
        simp [listingStep, h]
      rw [hstep, hs]
      exact hinv
    | ok l =>
      obtain ⟨hid, existing, hlook, hs⟩ := listing_update_ok_id s x s' l h
      have hstep : (listingStep s (ListingOp.updateOp x)).1 = s' := by
        simp [listingStep, h]
      rw [hstep, hs]
      intro q hq
      rcases mem_insertA _ _ _ _ hq with rfl | hq'
      · refine ⟨hid, ?_⟩
        show x.id < s.nextID
        exact (hinv (x.id, existing) (lookupA_mem _ _ _ hlook)).2
      · exact hinv q hq'
  | deleteOp id =>
    rcases h : s.delete id with ⟨s', res⟩
    cases res with
    | error e =>
      have hs : s' = s := listing_delete_error_eq s id s' e h
      have hstep : (listingStep s (ListingOp.deleteOp id)).1 = s' := by
        simp [listingStep, h]
      rw [hstep, hs]
      exact hinv
    | ok u =>
      have hs := listing_delete_ok_eq s id s' u h
      have hstep : (listingStep s (ListingOp.deleteOp id)).1 = s' := by
        simp [listingStep, h]
      rw [hstep, hs]
      intro q hq
      exact hinv q (mem_eraseA _ _ _ hq)
  | getByIDOp id => exact hinv
  | getAllOp => exact hinv
  | getFeaturedOp => exact hinv
  | getByPriceRangeOp a b => exact hinv

theorem entityRun_inv (ops : List EntityOp) (s : ExampleRepositoryImpl)
    (hinv : entityInv s) : entityInv (entityRun s ops).1 := by
  induction ops generalizing s with
  | nil => simpa [entityRun] using hinv
  | cons op ops ih =>
    simp only [entityRun]
    exact ih _ (entityStep_inv s op hinv)

theorem listingRun_inv (ops : List ListingOp) (s : ListingRepositoryImpl)
    (hinv : listingInv s) : listingInv (listingRun s ops).1 := by
  induction ops generalizing s with
  | nil => simpa [listingRun] using hinv
  | cons op ops ih =>
    simp only [listingRun]
    exact ih _ (listingStep_inv s op hinv)

/-! ## Claim theorems -/

/-- C1: for every repository operation (Create, Update, Delete on the
entity or the listing repository) and every input on which the
operation returns an error, the state — store contents, record count
and identity counter alike — is exactly the same after the call as
before it. -/
theorem failed_operations_leave_state_unchanged :
    (∀ (s : ExampleRepositoryImpl) (now : String) (x : ExampleModel) s' e,
      s.create now x = (s', .error e) → s' = s) ∧
    (∀ (s : ExampleRepositoryImpl) (now : String) (x : ExampleModel) s' e,
      s.update now x = (s', .error e) → s' = s) ∧
    (∀ (s : ExampleRepositoryImpl) (id : Int) s' e,
      s.delete id = (s', .error e) → s' = s) ∧
    (∀ (s : ListingRepositoryImpl) (now : String) (x : Listing) s' e,
      s.create now x = (s', .error e) → s' = s) ∧
    (∀ (s : ListingRepositoryImpl) (x : Listing) s' e,
      s.update x = (s', .error e) → s' = s) ∧
    (∀ (s : ListingRepositoryImpl) (id : Int) s' e,
      s.delete id = (s', .error e) → s' = s) :=
  ⟨entity_create_error_eq, entity_update_error_eq, entity_delete_error_eq,
   listing_create_error_eq, listing_update_error_eq, listing_delete_error_eq⟩

/-- C1 witness: a concrete failing `Create` (empty name) on the fresh
entity repository and a concrete failing `Delete` (missing id 42) on
the seeded listing repository both leave their stores untouched. -/
theorem failed_operations_leave_state_unchanged_witness :
    (newExampleRepository.create "2024-01-01T00:00:00Z"
        { id := 0, name := "", email := "a@b.co", createdAt := "", updatedAt := "" }).1
      = newExampleRepository ∧
    (newListingRepository.delete 42).1 = newListingRepository := by
  constructor
  · exact failed_operations_leave_state_unchanged.1 newExampleRepository
      "2024-01-01T00:00:00Z"
      { id := 0, name := "", email := "a@b.co", createdAt := "", updatedAt := "" }
      _ "name is required" (by rfl)
  · exact failed_operations_leave_state_unchanged.2.2.2.2.2 newListingRepository 42
      _ ("listing not found with id: " ++ toString (42 : Int) ++ ": not found") (by rfl)

/-- C2: over any sequence of repository calls started on a freshly
constructed repository (entity or listing), the identities assigned by
the successful `Create` calls, in the order they succeed, are strictly
increasing, and hence no assigned identity is ever assigned twice —
deletions in the sequence notwithstanding. -/
theorem assigned_identities_strictly_increase :
    (∀ ops : List EntityOp,
      List.Sorted (· < ·) (entityRun newExampleRepository ops).2 ∧
      (entityRun newExampleRepository ops).2.Nodup) ∧
    (∀ ops : List ListingOp,
      List.Sorted (· < ·) (listingRun newListingRepository ops).2 ∧
      (listingRun newListingRepository ops).2.Nodup) := by
  constructor
  · intro ops
    have h := (entityRun_trace_facts ops newExampleRepository).1
    exact ⟨h, List.Pairwise.imp (fun hlt => ne_of_lt hlt) h⟩
  · intro ops
    have h := (listingRun_trace_facts ops newListingRepository).1
    exact ⟨h, List.Pairwise.imp (fun hlt => ne_of_lt hlt) h⟩

/-- C9: in every state reachable by Create/Update/Delete (and read)
calls from a newly constructed repository, every key of the map equals
the id field of the record stored under it, and `nextID` is strictly
greater than every stored id. -/
theorem reachable_states_satisfy_key_id_invariant :
    (∀ ops : List EntityOp, entityInv (entityRun newExampleRepository ops).1) ∧
    (∀ ops : List ListingOp, listingInv (listingRun newListingRepository ops).1) := by
  constructor
  · intro ops
    refine entityRun_inv ops newExampleRepository ?_
    intro q hq
    simp [newExampleRepository] at hq
  · intro ops
    refine listingRun_inv ops newListingRepository ?_
    unfold listingInv
    decide

/-- C8: in every state of the listing repository, `GetFeatured` returns
exactly what `GetAll` returns — the stored listing schema carries no
featured flag, and both operations collect every stored record the same
way. -/
theorem get_featured_equals_get_all (s : ListingRepositoryImpl) :
    s.getFeatured = s.getAll :=
  rfl

/-- C7: `GetByPriceRange` always succeeds, and its result holds exactly
the stored listings whose price satisfies the inclusive bounds
`minPrice <= price <= maxPrice`; in particular a listing priced exactly
at either bound is included. -/
theorem get_by_price_range_inclusive (s : ListingRepositoryImpl) (minPrice maxPrice : Int) :
    ∃ l, s.getByPriceRange minPrice maxPrice = .ok l ∧
      ∀ x : Listing, x ∈ l ↔
        x ∈ valuesA s.data ∧ minPrice ≤ x.priceInCents ∧ x.priceInCents ≤ maxPrice := by
  refine ⟨_, rfl, ?_⟩
  intro x
  simp [ListingRepositoryImpl.getByPriceRange, valuesA, List.mem_filter, and_assoc]

/-- C10: the freshly constructed listing repository is pre-seeded with
24 sample listings; identity 187 is present and is the largest
pre-seeded identity; the counter stands at 188; and any successful
`Create` performed first on the fresh repository is assigned
identity 188. -/
theorem fresh_listing_repository_preseeded :
    newListingRepository.data.length = 24 ∧
    (∃ l, newListingRepository.getAll = .ok l ∧ l.length = 24) ∧
    (lookupA newListingRepository.data 187).isSome = true ∧
    (∀ q ∈ newListingRepository.data, q.1 ≤ 187) ∧
    newListingRepository.nextID = 188 ∧
    (∀ (now : String) (x : Listing) (s' : ListingRepositoryImpl) (res : Listing),
      newListingRepository.create now x = (s', .ok res) → res.id = 188) := by
  refine ⟨rfl, ⟨_, rfl, rfl⟩, rfl, by decide, rfl, ?_⟩
  intro now x s' res h
  obtain ⟨hres, -⟩ := listing_create_ok_eq _ _ _ _ _ h
  subst hres
  rfl

/-- C10 witness: concretely creating a valid listing on the fresh
repository yields identity 188. -/
theorem fresh_listing_repository_preseeded_witness :
    ({ testListingReq with id := 188 } : Listing).id = 188 :=
  fresh_listing_repository_preseeded.2.2.2.2.2 "2024-01-01T00:00:00Z" testListingReq
    (newListingRepository.create "2024-01-01T00:00:00Z" testListingReq).1
    { testListingReq with id := 188 } (by rfl)

/-- C4: entity `Create` fails with a ValidationError when name or email
is empty, fails with a ConflictError when a live record already carries
exactly the same email (case-sensitive string equality), and otherwise
succeeds: it assigns the next identity, stamps both timestamps with the
current time, and stores the record, so that an immediate `GetByID`
under the assigned identity returns the input record with identity and
timestamps populated. -/
theorem entity_create_contract (s : ExampleRepositoryImpl) (now : String) (x : ExampleModel) :
    ((x.name = "" ∨ x.email = "") →
      ∃ e, (s.create now x).2 = .error e ∧ isValidationError e = true) ∧
    (x.name ≠ "" → x.email ≠ "" →
      (∃ q ∈ s.data, q.2.email = x.email) →
      (s.create now x).2 = .error "email already exists" ∧
      isConflictError "email already exists" = true) ∧
    (x.name ≠ "" → x.email ≠ "" →
      (∀ q ∈ s.data, q.2.email ≠ x.email) →
      (s.create now x).2 = .ok { x with id := s.nextID, createdAt := now, updatedAt := now } ∧
      (s.create now x).1.getByID s.nextID =
        .ok { x with id := s.nextID, createdAt := now, updatedAt := now }) := by
  refine ⟨?_, ?_, ?_⟩
  · intro h
    by_cases hn : x.name = ""
    · exact ⟨"name is required", by simp [ExampleRepositoryImpl.create, hn], by decide⟩
    · have he : x.email = "" := h.resolve_left hn
      exact ⟨"email is required", by simp [ExampleRepositoryImpl.create, hn, he], by decide⟩
  · rintro hn he ⟨q, hq, hmail⟩
    have hany : s.data.any (fun p => p.2.email == x.email) = true := by
      rw [List.any_eq_true]
      exact ⟨q, hq, by simp [hmail]⟩
    exact ⟨by simp [ExampleRepositoryImpl.create, hn, he, hany], by decide⟩
  · intro hn he hnone
    have hany : s.data.any (fun p => p.2.email == x.email) = false := by
      rw [Bool.eq_false_iff]
      intro hc
      rw [List.any_eq_true] at hc
      obtain ⟨q, hq, hmail⟩ := hc
      exact hnone q hq (by simpa using hmail)
    have hstate : s.create now x =
        ({ data := insertA s.data s.nextID
             { x with id := s.nextID, createdAt := now, updatedAt := now },
           nextID := s.nextID + 1 },
         .ok { x with id := s.nextID, createdAt := now, updatedAt := now }) := by
      simp [ExampleRepositoryImpl.create, hn, he, hany]
    refine ⟨by rw [hstate], ?_⟩
    rw [hstate]
    unfold ExampleRepositoryImpl.getByID
    rw [lookupA_insertA_self]

/-- C4 witness: a concrete successful `Create` on the fresh entity
repository returns the stamped record and reads it back. -/
theorem entity_create_contract_witness :
    (newExampleRepository.create "2024-01-01T00:00:00Z" testExampleReq).2 =
      .ok { testExampleReq with
            id := 1, createdAt := "2024-01-01T00:00:00Z",
            updatedAt := "2024-01-01T00:00:00Z" } ∧
    (newExampleRepository.create "2024-01-01T00:00:00Z" testExampleReq).1.getByID 1 =
      .ok { testExampleReq with
            id := 1, createdAt := "2024-01-01T00:00:00Z",
            updatedAt := "2024-01-01T00:00:00Z" } :=
  (entity_create_contract newExampleRepository "2024-01-01T00:00:00Z" testExampleReq).2.2
    (by decide) (by decide) (by intro q hq; simp [newExampleRepository] at hq)

/-- C3: for a listing stored with a non-null `madeVisibleAt` timestamp
`T`, a successful `Update` whose request record carries a null
`madeVisibleAt` does not erase `T`: the stored record after the update
still carries `T`, and a `GetByID` for that identity returns it. -/
theorem update_preserves_visible_timestamp
    (s : ListingRepositoryImpl) (x stored : Listing) (T : String)
    (hstored : lookupA s.data x.id = some stored)
    (hT : stored.madeVisibleAt = some T)
    (hnull : x.madeVisibleAt = none)
    (s' : ListingRepositoryImpl) (l : Listing)
    (hupd : s.update x = (s', .ok l)) :
    l.madeVisibleAt = some T ∧
    lookupA s'.data x.id = some l ∧
    s'.getByID x.id = .ok l := by
  obtain ⟨hl, hs⟩ := listing_update_sticky_eq s x stored T hstored hT hnull s' l hupd
  subst hl
  subst hs
  refine ⟨rfl, lookupA_insertA_self _ _ _, ?_⟩
  unfold ListingRepositoryImpl.getByID
  rw [lookupA_insertA_self]

/-- C3 witness: updating a concretely stored listing (timestamp
`2023-01-01T00:00:00Z`) with a null-timestamp request keeps the
timestamp, observable through the store and through `GetByID`. -/
theorem update_preserves_visible_timestamp_witness :
    ({ listingUpdateReq with madeVisibleAt := some "2023-01-01T00:00:00Z" } : Listing).madeVisibleAt
        = some "2023-01-01T00:00:00Z" ∧
    lookupA (listingRepoFix.update listingUpdateReq).1.data 1 =
      some { listingUpdateReq with madeVisibleAt := some "2023-01-01T00:00:00Z" } ∧
    (listingRepoFix.update listingUpdateReq).1.getByID 1 =
      .ok { listingUpdateReq with madeVisibleAt := some "2023-01-01T00:00:00Z" } :=
  update_preserves_visible_timestamp listingRepoFix listingUpdateReq listingStoredFix
    "2023-01-01T00:00:00Z" (by rfl) (by rfl) (by rfl)
    (listingRepoFix.update listingUpdateReq).1
    { listingUpdateReq with madeVisibleAt := some "2023-01-01T00:00:00Z" } (by rfl)

/-- Any message formed by the `errors.Wrapf(errors.New("not found"), ...)`
pattern is classified as a NotFoundError. -/
theorem isNotFoundError_append (s : String) :
    isNotFoundError (s ++ ": not found") = true := by
  unfold isNotFoundError
  rw [String.data_append]
  exact List.isSuffixOf_iff_suffix.mpr (List.suffix_append _ _)

/-- C6 (amended): for every update request that passes field validation
(entity: non-empty name and email; listing: non-empty city, shortened
postcode, region, property type and strictly positive price) and whose
record identity is not present in the store, `Update` fails with a
NotFoundError.  (Both implementations validate fields before checking
existence, so an invalid request with an absent identity fails with a
ValidationError instead — see the counterexample.) -/
theorem update_valid_missing_id_not_found :
    (∀ (s : ExampleRepositoryImpl) (now : String) (x : ExampleModel),
      x.name ≠ "" → x.email ≠ "" → lookupA s.data x.id = none →
      ∃ e, (s.update now x).2 = .error e ∧ isNotFoundError e = true) ∧
    (∀ (s : ListingRepositoryImpl) (x : Listing),
      x.addressDetails.city ≠ "" → x.addressDetails.shortenedPostcode ≠ "" →
      x.addressDetails.region ≠ "" → x.propertyType ≠ "" → 0 < x.priceInCents →
      lookupA s.data x.id = none →
      ∃ e, (s.update x).2 = .error e ∧ isNotFoundError e = true) := by
  constructor
  · intro s now x hn he hlook
    refine ⟨"example not found with id: " ++ toString x.id ++ ": not found", ?_, ?_⟩
    · simp [ExampleRepositoryImpl.update, hn, he, hlook]
    · exact isNotFoundError_append _
  · intro s x h1 h2 h3 h4 h5 hlook
    have h5' : ¬x.priceInCents ≤ 0 := by omega
    refine ⟨"listing not found with id: " ++ toString x.id ++ ": not found", ?_, ?_⟩
    · simp [ListingRepositoryImpl.update, h1, h2, h3, h4, h5', hlook]
    · exact isNotFoundError_append _

/-- C6 counterexample: identity 5 is absent from the fresh entity
repository, yet `Update` of a record with id 5 and an empty name fails
with the validation message "name is required", which is not a
NotFoundError — refuting the claim that every update with an absent
identity fails with a NotFoundError. -/
theorem update_missing_id_counterexample :
    lookupA newExampleRepository.data 5 = none ∧
    (newExampleRepository.update "2024-01-01T00:00:00Z"
        { id := 5, name := "", email := "e@x.co", createdAt := "", updatedAt := "" }).2
      = .error "name is required" ∧
    isNotFoundError "name is required" = false ∧
    isValidationError "name is required" = true := by
  exact ⟨rfl, rfl, by decide, by decide⟩

/-- C6 witness: a concrete valid update aimed at the absent identity 7
fails with the wrapped not-found message. -/
theorem update_valid_missing_id_not_found_witness :
    (newExampleRepository.update "2024-01-01T00:00:00Z"
        { id := 7, name := "Ann", email := "ann@x.co", createdAt := "", updatedAt := "" }).2
      = .error "example not found with id: 7: not found" ∧
    isNotFoundError "example not found with id: 7: not found" = true := by
  obtain ⟨e, he, hkind⟩ := update_valid_missing_id_not_found.1 newExampleRepository
    "2024-01-01T00:00:00Z"
    { id := 7, name := "Ann", email := "ann@x.co", createdAt := "", updatedAt := "" }
    (by decide) (by decide) (by rfl)
  have hcat : Except.error (ε := String) (α := ExampleModel) e =
      .error "example not found with id: 7: not found" :=
    he.symm.trans (by rfl)
  have : e = "example not found with id: 7: not found" := by
    injection hcat
  subst this
  exact ⟨he.trans hcat, hkind⟩

/-- C5 (amended): the entity repository's reads return defensive
copies — mutating the record behind the pointer `GetByID` returned, or
behind any pointer `GetAll` returned, never changes a record the store
holds — whereas the listing repository's `GetByID` returns the stored
pointer itself and `GetAll` returns exactly the stored pointers, so a
caller mutation through such a pointer changes what every later
`GetByID` (and every later `GetAll`, which keeps handing out the same
pointer) returns for that identity. -/
theorem entity_get_copies_listing_get_aliases :
    (∀ (r : ExampleHeapRepo), r.WF →
      ∀ (id : Int) (r' : ExampleHeapRepo) (a : Nat),
        r.getByID id = (r', .ok a) →
        ∀ (v : ExampleModel) (id' : Int),
          (r'.mutateAt a v).storedValue id' = r.storedValue id') ∧
    (∀ (r : ExampleHeapRepo), r.WF →
      ∀ (r' : ExampleHeapRepo) (addrs : List Nat),
        r.getAll = (r', addrs) →
        ∀ a ∈ addrs, ∀ (v : ExampleModel) (id' : Int),
          (r'.mutateAt a v).storedValue id' = r.storedValue id') ∧
    (∀ (r : ListingHeapRepo) (id : Int) (a : Nat),
      r.getByID id = .ok a →
      lookupA r.data id = some a ∧ a ∈ r.getAll ∧
      ∀ v : Listing,
        (r.mutateAt a v).getByIDValue id = some v ∧
        (r.mutateAt a v).storedValue id = some v ∧
        (r.mutateAt a v).getAll = r.getAll) := by
  refine ⟨?_, ?_, ?_⟩
  · intro r hWF id r' a h
    obtain ⟨hWF1, hWF2⟩ := hWF
    unfold ExampleHeapRepo.getByID at h
    rcases hl : lookupA r.data id with _ | addr
    · rw [hl] at h
      simp at h
    · rw [hl] at h
      simp only [] at h
      rcases hh : heapRead r.heap addr with _ | e0
      · rw [hh] at h
        simp at h
      · rw [hh] at h
        simp only [Prod.mk.injEq, Except.ok.injEq] at h
        obtain ⟨hr', ha⟩ := h
        subst hr'
        subst ha
        intro v id'
        unfold ExampleHeapRepo.mutateAt ExampleHeapRepo.storedValue
        rcases hl' : lookupA r.data id' with _ | b
        · simp [hl']
        · simp only [hl', Option.bind_some]
          obtain ⟨w, hw⟩ := Option.isSome_iff_exists.mp (hWF2 (id', b) (lookupA_mem _ _ _ hl'))
          have hb : b < r.nextAddr := hWF1 (b, w) (lookupA_mem _ _ _ hw)
          have hne : r.nextAddr ≠ b := by omega
          show lookupA (heapWrite _ r.nextAddr v) b = _
          unfold heapWrite
          rw [lookupA_insertA_ne _ _ _ _ hne]
          show lookupA (r.heap ++ _) b = _
          rw [lookupA_append_left _ _ _ _ hw]
          exact hw.symm
  · intro r hWF r' addrs h a ha v id'
    obtain ⟨hWF1, hWF2⟩ := hWF
    obtain ⟨hdata, ⟨ext, hheap⟩, -, htr⟩ := exampleHeap_getAllLoop_spec r.data r
    have hga : r.getAllLoop r.data = (r', addrs) := h
    rw [hga] at hdata hheap htr
    dsimp only at hdata hheap htr
    have hfresh : r.nextAddr ≤ a := htr a ha
    unfold ExampleHeapRepo.mutateAt ExampleHeapRepo.storedValue
    dsimp only
    rw [hdata]
    rcases hl' : lookupA r.data id' with _ | b
    · rfl
    · simp only [Option.some_bind]
      obtain ⟨w, hw⟩ := Option.isSome_iff_exists.mp (hWF2 (id', b) (lookupA_mem _ _ _ hl'))
      have hb : b < r.nextAddr := hWF1 (b, w) (lookupA_mem _ _ _ hw)
      have hne : a ≠ b := by omega
      show lookupA (heapWrite r'.heap a v) b = _
      unfold heapWrite
      rw [lookupA_insertA_ne _ _ _ _ hne]
      show lookupA r'.heap b = _
      rw [hheap, lookupA_append_left _ _ _ _ hw]
      exact hw.symm
  · intro r id a h
    unfold ListingHeapRepo.getByID at h
    rcases hl : lookupA r.data id with _ | addr
    · rw [hl] at h
      simp at h
    · rw [hl] at h
      simp only [Except.ok.injEq] at h
      subst h
      refine ⟨rfl, ?_, ?_⟩
      · exact List.mem_map_of_mem _ (lookupA_mem _ _ _ hl)
      · intro v
        refine ⟨?_, ?_, rfl⟩
        · unfold ListingHeapRepo.getByIDValue ListingHeapRepo.getByID ListingHeapRepo.mutateAt
          simp only [hl]
          exact lookupA_insertA_self _ _ _
        · unfold ListingHeapRepo.storedValue ListingHeapRepo.mutateAt
          simp only [hl, Option.some_bind]
          exact lookupA_insertA_self _ _ _

/-- C5 counterexample: in the listing repository (state reached by one
successful `Create`), mutating the record `GetByID` handed back changes
the value the next `GetByID` returns — refuting the claim that both
repositories return defensive copies from their reads. -/
theorem listing_reads_alias_counterexample :
    listingHeapFix.getByID 1 = .ok 0 ∧
    listingHeapFix.getByIDValue 1 = some { testListingReq with id := 1 } ∧
    (listingHeapFix.mutateAt 0 mutatedListing).getByIDValue 1 = some mutatedListing ∧
    mutatedListing ≠ { testListingReq with id := 1 } := by
  refine ⟨rfl, rfl, rfl, by decide⟩

/-- C5 witness: concrete instances of all three parts — entity-side
mutations through the copy `GetByID` returned and through a copy
`GetAll` returned leave the store unchanged, and a listing-side
mutation through the aliased pointer is observed by the next read. -/
theorem entity_get_copies_listing_get_aliases_witness :
    ((exampleHeapFix.getByID 1).1.mutateAt 1 mutatedExample).storedValue 1
        = exampleHeapFix.storedValue 1 ∧
    ((exampleHeapFix.getAll).1.mutateAt 1 mutatedExample).storedValue 1
        = exampleHeapFix.storedValue 1 ∧
    (listingHeapFix.mutateAt 0 mutatedListing).getByIDValue 1 = some mutatedListing := by
  refine ⟨?_, ?_, ?_⟩
  · exact entity_get_copies_listing_get_aliases.1 exampleHeapFix
      ⟨by decide, by decide⟩ 1 (exampleHeapFix.getByID 1).1 1 (by rfl) mutatedExample 1
  · exact entity_get_copies_listing_get_aliases.2.1 exampleHeapFix
      ⟨by decide, by decide⟩ (exampleHeapFix.getAll).1 [1] (by rfl) 1 (by decide)
      mutatedExample 1
  · exact ((entity_get_copies_listing_get_aliases.2.2 listingHeapFix 1 0
      (by rfl)).2.2 mutatedListing).1
